import Mathlib

/-!
The `required`, `uuid`, `latitude` and `longitude` validators of package `walidator`.

A shallow embedding of `extensions.go` (package `walidator`).

* `Float64` is the IEEE 754 binary64 format, field by field, with Go's `<` and `>`.
* `GoType`, `GoType.Repr` and `Value` describe what an `interface{}` can hold: a
  dynamic type together with a value of that type, or nothing at all.
* `reflect.Kind`, `Value.Kind` and `Value.IsNil` follow package `reflect`;
  `IsNil` and the pointer dereference can panic, so every validator returns in
  `Except Panic`.
* `strconv.ParseFloat` and the `fmt` verbs `%g` and `%v` belong to the Go standard
  library; the validators take them as the parameter `Lib`.
* `uuid` hands its pattern to the collaborator `regex`, declared outside
  `extensions.go`; `Regexp` reads the fragment of Go regular expressions the pattern
  uses.
-/

set_option linter.unusedVariables false
set_option exponentiation.threshold 4096

namespace walidator

/-! ## float64 -/

/-- IEEE 754 binary64: a sign bit, an 11-bit biased exponent and a 52-bit fraction. -/
structure Float64 where
  sign : Bool
  expo : Nat
  frac : Nat
  expo_lt : expo < 2048
  frac_lt : frac < 2 ^ 52
  deriving DecidableEq

namespace Float64

/-- Not-a-number: all exponent bits set and a non-zero fraction. -/
def isNaN (x : Float64) : Bool := x.expo == 2047 && x.frac != 0

/-- Infinity of either sign: all exponent bits set and a zero fraction. -/
def isInf (x : Float64) : Bool := x.expo == 2047 && x.frac == 0

/-- Magnitude in units of `2^-1074` (the smallest subnormal). For a finite number it
is exact; for an infinity the same formula gives `2^2098`, above every finite
magnitude (the largest is `(2^53 - 1) * 2^2045`). -/
def mag (x : Float64) : Nat :=
  if x.expo = 0 then x.frac else (2 ^ 52 + x.frac) * 2 ^ (x.expo - 1)

/-- Signed magnitude: an order embedding of the non-NaN numbers into the integers
(`-0` and `+0` both map to `0`). -/
def ord (x : Float64) : Int := if x.sign then -(x.mag : Int) else (x.mag : Int)

/-- Go's `a < b` on float64: false whenever an operand is NaN. -/
def lt (a b : Float64) : Bool := !a.isNaN && !b.isNaN && decide (a.ord < b.ord)

/-- Go's `a > b` on float64. -/
def gt (a b : Float64) : Bool := lt b a

/-- Unary minus flips the sign bit. -/
def neg (x : Float64) : Float64 := { x with sign := !x.sign }

/-- Exact rational value of a finite number; `none` for NaN and the infinities. -/
def toRat? (x : Float64) : Option ℚ :=
  if x.expo = 2047 then none else some ((x.ord : ℚ) / 2 ^ 1074)

/-- The number is finite and its exact value lies in the closed interval `[lo, hi]`. -/
def InClosed (lo hi : ℚ) (x : Float64) : Prop :=
  ∃ q : ℚ, x.toRat? = some q ∧ lo ≤ q ∧ q ≤ hi

/-- The number is strictly greater than `r`: `+Inf`, or finite with exact value above `r`. -/
def Above (r : ℚ) (x : Float64) : Prop :=
  (x.isInf = true ∧ x.sign = false) ∨ ∃ q : ℚ, x.toRat? = some q ∧ r < q

/-- The number is strictly less than `r`: `-Inf`, or finite with exact value below `r`. -/
def Below (r : ℚ) (x : Float64) : Prop :=
  (x.isInf = true ∧ x.sign = true) ∨ ∃ q : ℚ, x.toRat? = some q ∧ q < r

/-- The constant `90`: `1.40625 * 2^6`. -/
def c90 : Float64 := ⟨false, 1029, 0x6800000000000, by decide, by decide⟩

/-- The constant `180`: `1.40625 * 2^7`. -/
def c180 : Float64 := ⟨false, 1030, 0x6800000000000, by decide, by decide⟩

/-- The constant `45`: `1.40625 * 2^5`. -/
def c45 : Float64 := ⟨false, 1028, 0x6800000000000, by decide, by decide⟩

/-- The constant `0`. -/
def zero : Float64 := ⟨false, 0, 0, by decide, by decide⟩

/-- The value of `math.NaN()`, bits `0x7FF8000000000001`. -/
def NaN : Float64 := ⟨false, 2047, 0x8000000000001, by decide, by decide⟩

/-- Positive infinity, `math.Inf(1)`. -/
def posInf : Float64 := ⟨false, 2047, 0, by decide, by decide⟩

/-- The float64 nearest to the decimal `90.0000001`, bits `0x40568000006B5FCA`. -/
def c90_0000001 : Float64 := ⟨false, 1029, 0x68000006B5FCA, by decide, by decide⟩

/-- The float64 nearest to the decimal `90.0001`, bits `0x40568001A36E2EB2`. -/
def c90_0001 : Float64 := ⟨false, 1029, 0x68001A36E2EB2, by decide, by decide⟩

/-- The constant `91`: `1.421875 * 2^6`. -/
def c91 : Float64 := ⟨false, 1029, 0x6C00000000000, by decide, by decide⟩

end Float64

/-! ## Types and values -/

/-- The kinds of package `reflect`, in the order of `reflect.Kind`. -/
inductive Kind where
  | Invalid | Bool
  | Int | Int8 | Int16 | Int32 | Int64
  | Uint | Uint8 | Uint16 | Uint32 | Uint64 | Uintptr
  | Float32 | Float64 | Complex64 | Complex128
  | Array | Chan | Func | Interface | Map | Ptr | Slice | String | Struct
  | UnsafePointer
  deriving DecidableEq, Repr

/-- A pointer to a live variable: its address and the value stored there. -/
structure Pointer (α : Type) where
  addr : Nat
  target : α

mutual
/-- Go types. `named` is a defined type (`type T U`), distinct from its underlying
type for a type switch but of the same kind. -/
inductive GoType where
  | bool
  | int | int8 | int16 | int32 | int64
  | uint | uint8 | uint16 | uint32 | uint64 | uintptr
  | float32 | float64 | complex64 | complex128
  | string
  | unsafePointer
  | array (len : Nat) (elem : GoType)
  | chan (elem : GoType)
  | func (ins outs : Fields)
  | interface (methods : Fields)
  | map (key elem : GoType)
  | ptr (elem : GoType)
  | slice (elem : GoType)
  | struct (fields : Fields)
  | named (name : String) (underlying : GoType)
/-- A list of named, typed entries: struct fields, parameters, results, methods. -/
inductive Fields where
  | nil
  | cons (name : String) (typ : GoType) (rest : Fields)
end

mutual
/-- The values of a type. A `nil` pointer, slice, map, channel, function or interface
is `none`; an unsafe pointer is its address, `0` for nil. -/
def GoType.Repr : GoType → Type
  | .bool => Bool
  | .int | .int8 | .int16 | .int32 | .int64 => Int
  | .uint | .uint8 | .uint16 | .uint32 | .uint64 | .uintptr => Nat
  | .float32 => Nat
  | .float64 => Float64
  | .complex64 => Nat × Nat
  | .complex128 => Float64 × Float64
  | .string => String
  | .unsafePointer => Nat
  | .array n e => Fin n → e.Repr
  | .chan _ => Option Nat
  | .func _ _ => Option Nat
  | .interface _ => Option Nat
  | .map k e => Option (List (k.Repr × e.Repr))
  | .ptr e => Option (Pointer e.Repr)
  | .slice e => Option (List e.Repr)
  | .struct fs => fs.Repr
  | .named _ u => u.Repr
/-- The values of a field list: one value per field. -/
def Fields.Repr : Fields → Type
  | .nil => Unit
  | .cons _ t rest => t.Repr × rest.Repr
end

/-- The kind of a type: a defined type has the kind of its underlying type. -/
def GoType.Kind : GoType → Kind
  | .bool => .Bool
  | .int => .Int | .int8 => .Int8 | .int16 => .Int16 | .int32 => .Int32 | .int64 => .Int64
  | .uint => .Uint | .uint8 => .Uint8 | .uint16 => .Uint16 | .uint32 => .Uint32
  | .uint64 => .Uint64 | .uintptr => .Uintptr
  | .float32 => .Float32 | .float64 => .Float64
  | .complex64 => .Complex64 | .complex128 => .Complex128
  | .string => .String
  | .unsafePointer => .UnsafePointer
  | .array _ _ => .Array
  | .chan _ => .Chan
  | .func _ _ => .Func
  | .interface _ => .Interface
  | .map _ _ => .Map
  | .ptr _ => .Ptr
  | .slice _ => .Slice
  | .struct _ => .Struct
  | .named _ u => u.Kind

/-- What an `interface{}` argument holds, as `reflect.ValueOf` sees it: either nothing
(the nil interface, no type information) or a dynamic type with a value of it. -/
inductive Value where
  | nil
  | of (t : GoType) (x : t.Repr)

/-- Run-time panics the embedded code could raise. -/
inductive Panic where
  | valueError (method : String) (kind : Kind)
  | nilDereference
  deriving DecidableEq, Repr

/-- The method `reflect.Value.Kind`; `Invalid` for the zero `reflect.Value`. -/
def Value.Kind : Value → Kind
  | .nil => .Invalid
  | .of t _ => t.Kind

/-- The nil test of `reflect.Value.IsNil` on a value of type `t`: defined for chan, func,
interface, map, pointer, slice and unsafe pointer, a panic for every other kind. -/
def GoType.IsNil : (t : GoType) → t.Repr → Except Panic Bool
  | .chan _, x => .ok x.isNone
  | .func _ _, x => .ok x.isNone
  | .interface _, x => .ok x.isNone
  | .map _ _, x => .ok x.isNone
  | .ptr _, x => .ok x.isNone
  | .slice _, x => .ok x.isNone
  | .unsafePointer, x => .ok (Nat.beq x 0)
  | .named _ u, x => u.IsNil x
  | t, _ => .error (.valueError "reflect.Value.IsNil" t.Kind)

/-- The method `reflect.Value.IsNil`; it panics on the zero `reflect.Value`. -/
def Value.IsNil : Value → Except Panic Bool
  | .nil => .error (.valueError "reflect.Value.IsNil" .Invalid)
  | .of t x => t.IsNil x

/-- Pointer dereference `*p`: a panic on a nil pointer. -/
def deref {α : Type} : Option (Pointer α) → Except Panic α
  | none => .error .nilDereference
  | some p => .ok p.target

/-! ## Errors and library functions -/

/-- Modelled from the spec: the error vocabulary, declared outside `extensions.go`. Two
sentinels and a textual wrapper carrying a pre-formatted message. -/
inductive Error where
  | ErrRequired
  | ErrUnsupported
  | TextErr (msg : String)
  deriving DecidableEq, Repr

/-- The standard-library functions the validators call. `parseFloat s` is
`strconv.ParseFloat(s, 64)`, `none` when it reports an error; `formatG` and `formatV`
are the `fmt` verbs `%g` (on a float64) and `%v` (on any operand). -/
structure Lib where
  parseFloat : String → Option Float64
  formatG : Float64 → String
  formatV : Value → String

/-! ## The validators -/

/-- The function `required` of `extensions.go`. -/
def required (v : Value) (param : String) : Except Panic (Option Error) := do
  let st := v
  let mut valid := false
  match st.Kind with
  | .Ptr | .Interface =>
    valid := !(← st.IsNil)
  | .Invalid =>
    valid := false
  | .String | .Slice | .Map | .Array | .Int | .Int8 | .Int16 | .Int32 | .Int64
  | .Uint | .Uint8 | .Uint16 | .Uint32 | .Uint64 | .Uintptr | .Float32 | .Float64
  | .Bool | .Struct =>
    valid := true
  | _ =>
    return some .ErrUnsupported
  if valid then
    return none
  return some .ErrRequired

/-- The closure `validateLatitude` inside `latitude`. -/
def validateLatitude (L : Lib) (v : Float64) : Option Error :=
  if v.lt Float64.c90.neg || v.gt Float64.c90 then
    some (.TextErr (L.formatG v ++ " is not a valid latitude"))
  else
    none

/-- The function `latitude` of `extensions.go`. -/
def latitude (L : Lib) (i : Value) (param : String) : Except Panic (Option Error) :=
  match i with
  | .of (.ptr .float64) v =>
    if v.isNone then
      pure none
    else do
      let f ← deref v
      pure (validateLatitude L f)
  | .of .float64 v =>
    pure (validateLatitude L v)
  | .of (.ptr .string) v =>
    if v.isNone then
      pure none
    else do
      let s ← deref v
      match L.parseFloat s with
      | none => pure (some (.TextErr (L.formatV (.of (.ptr .string) v) ++ " is not a valid latitude")))
      | some f => pure (validateLatitude L f)
  | .of .string v =>
    match L.parseFloat v with
    | none => pure (some (.TextErr (L.formatV (.of .string v) ++ " is not a valid latitude")))
    | some f => pure (validateLatitude L f)
  | v =>
    pure (some (.TextErr (L.formatV v ++ " is not a valid latitude")))

/-- The closure `validateLongitude` inside `longitude`. -/
def validateLongitude (L : Lib) (v : Float64) : Option Error :=
  if v.lt Float64.c180.neg || v.gt Float64.c180 then
    some (.TextErr (L.formatG v ++ " is not a valid longitude"))
  else
    none

/-- The function `longitude` of `extensions.go`. -/
def longitude (L : Lib) (i : Value) (param : String) : Except Panic (Option Error) :=
  match i with
  | .of (.ptr .float64) v =>
    if v.isNone then
      pure none
    else do
      let f ← deref v
      pure (validateLongitude L f)
  | .of .float64 v =>
    pure (validateLongitude L v)
  | .of (.ptr .string) v =>
    if v.isNone then
      pure none
    else do
      let s ← deref v
      match L.parseFloat s with
      | none => pure (some (.TextErr (L.formatV (.of (.ptr .string) v) ++ " is not a valid longitude")))
      | some f => pure (validateLongitude L f)
  | .of .string v =>
    match L.parseFloat v with
    | none => pure (some (.TextErr (L.formatV (.of .string v) ++ " is not a valid longitude")))
    | some f => pure (validateLongitude L f)
  | v =>
    pure (some (.TextErr (L.formatV v ++ " is not a valid longitude")))

/-! ## Instances and a sample library -/

instance instDecidableEqExcept {ε α : Type} [DecidableEq ε] [DecidableEq α] :
    DecidableEq (Except ε α)
  | .ok a, .ok b =>
    if h : a = b then isTrue (by rw [h]) else isFalse (fun e => h (by injection e))
  | .error a, .error b =>
    if h : a = b then isTrue (by rw [h]) else isFalse (fun e => h (by injection e))
  | .ok _, .error _ => isFalse (fun e => by injection e)
  | .error _, .ok _ => isFalse (fun e => by injection e)

/-- Lower-case hexadecimal digits of a number, as `%x` prints them. -/
def hexDigits (n : Nat) : String := String.mk (Nat.toDigits 16 n)

/-- A small instance of the library, used to run the validators on concrete inputs. Its
parser knows the decimal strings `"45.0"`, `"90"`, `"91"` and `"180"` and reports an
error for every other string; `%g` knows the renderings of a few numbers; `%v` prints
a string as its text and a non-nil pointer as its address in hexadecimal. -/
def sampleLib : Lib where
  parseFloat := fun s =>
    if s = "45.0" then some Float64.c45
    else if s = "90" then some Float64.c90
    else if s = "91" then some Float64.c91
    else if s = "180" then some Float64.c180
    else none
  formatG := fun v =>
    if v = Float64.c91 then "91"
    else if v = Float64.c91.neg then "-91"
    else if v = Float64.c90_0001 then "90.0001"
    else if v = Float64.posInf then "+Inf"
    else if v = Float64.posInf.neg then "-Inf"
    else "<float64>"
  formatV := fun v =>
    match v with
    | .of .string s => s
    | .of (.ptr _) (some p) => "0x" ++ hexDigits p.addr
    | _ => "<value>"

/-! ## Further helpers -/

/-- The constant `120`: `1.875 * 2^6`. -/
def Float64.c120 : Float64 := ⟨false, 1029, 0xE000000000000, by decide, by decide⟩

/-- The dynamic type an interface value carries; `none` for the nil interface. -/
def Value.dynType : Value → Option GoType
  | .nil => none
  | .of t _ => some t

/-- The pattern `uuidRE` inside `uuid`; the braces of the source text are written as
the escapes `\x7b` and `\x7d`. -/
def uuidRE : String :=
  "(?i)^[0-9a-f]\x7b8\x7d-[0-9a-f]\x7b4\x7d-[1-5][0-9a-f]\x7b3\x7d-[89ab][0-9a-f]\x7b3\x7d-[0-9a-f]\x7b12\x7d$"

/-- The function `uuid` of `extensions.go`. The collaborator `regex` it calls is declared
outside `extensions.go` and is taken as a parameter. -/
def uuid (regex : Value → String → Except Panic (Option Error)) (v : Value)
    (param : String) : Except Panic (Option Error) :=
  regex v uuidRE

/-! ## A fragment of Go regular expressions -/

namespace Regexp

/-- A set of characters given as inclusive ranges of code points. -/
abbrev Class := List (Nat × Nat)

/-- One element of a pattern: a class repeated a fixed number of times. -/
structure Item where
  cls : Class
  count : Nat
  deriving DecidableEq, Repr

/-- A compiled pattern of the fragment: the flag `(?i)`, the anchors `^` and `$`, and
a sequence of items. -/
structure Prog where
  foldCase : Bool
  bol : Bool
  eol : Bool
  items : List Item
  deriving DecidableEq, Repr

/-- Characters with a meaning of their own outside a bracket class. -/
def isMeta (c : Char) : Bool :=
  c.toNat ∈ [92, 46, 43, 42, 63, 40, 41, 124, 91, 93, 123, 125, 94, 36]

/-- The inside of a bracket class, after `[`: ranges `x-y` and single characters, all
ASCII letters or digits, up to the closing `]`. Anything else is outside the fragment. -/
def parseClass : Nat → List Char → Class → Option (Class × List Char)
  | 0, _, _ => none
  | fuel + 1, cs, acc =>
    match cs with
    | [] => none
    | a :: rest =>
      if a = ']' then
        if acc.isEmpty then none else some (acc.reverse, rest)
      else if !a.isAlphanum then none
      else
        match rest with
        | '-' :: b :: rest2 =>
          if b.isAlphanum && decide (a.toNat ≤ b.toNat) then
            parseClass fuel rest2 ((a.toNat, b.toNat) :: acc)
          else none
        | _ => parseClass fuel rest ((a.toNat, a.toNat) :: acc)

/-- The digits of a repetition count, up to the closing brace. -/
def parseDigits : List Char → Nat → Option (Nat × List Char)
  | [], _ => none
  | c :: rest, n =>
    if c.toNat = 125 then some (n, rest)
    else if c.isDigit then parseDigits rest (10 * n + (c.toNat - 48))
    else none

/-- An optional repetition count after an atom: a brace, digits, a brace; one
repetition when there is none. -/
def parseCount (cs : List Char) : Option (Nat × List Char) :=
  match cs with
  | c :: d :: rest =>
    if c.toNat = 123 then
      if d.isDigit then parseDigits rest (d.toNat - 48) else none
    else some (1, cs)
  | _ => some (1, cs)

/-- The items of a pattern and whether it ends with `$`. -/
def parseItems : Nat → List Char → Option (List Item × Bool)
  | 0, _ => none
  | fuel + 1, cs =>
    match cs with
    | [] => some ([], false)
    | c :: rest =>
      if c = '$' && rest.isEmpty then some ([], true)
      else if c = '[' then
        match parseClass (rest.length + 1) rest [] with
        | none => none
        | some (cl, rest2) =>
          match parseCount rest2 with
          | none => none
          | some (n, rest3) =>
            match parseItems fuel rest3 with
            | none => none
            | some (items, eol) => some (⟨cl, n⟩ :: items, eol)
      else if isMeta c then none
      else
        match parseCount rest with
        | none => none
        | some (n, rest3) =>
          match parseItems fuel rest3 with
          | none => none
          | some (items, eol) => some (⟨[(c.toNat, c.toNat)], n⟩ :: items, eol)

/-- The function `regexp.Compile` on the fragment; `none` for every other pattern. -/
def compile (pattern : String) : Option Prog :=
  let cs := pattern.toList
  let flag := match cs with
    | '(' :: '?' :: 'i' :: ')' :: rest => (true, rest)
    | _ => (false, cs)
  let anchor := match flag.2 with
    | '^' :: rest => (true, rest)
    | _ => (false, flag.2)
  match parseItems (anchor.2.length + 1) anchor.2 with
  | none => none
  | some (items, eol) => some ⟨flag.1, anchor.1, eol, items⟩

/-- A code point lies in one of the ranges. -/
def inRanges (cl : Class) (n : Nat) : Bool :=
  cl.any (fun r => decide (r.1 ≤ n) && decide (n ≤ r.2))

/-- A character matches a class; under `(?i)` also when its other ASCII letter case
does. (Go folds by Unicode simple folding, which adds non-ASCII characters only to
classes holding `k` or `s`.) -/
def Class.mem (fold : Bool) (cl : Class) (c : Char) : Bool :=
  inRanges cl c.toNat ||
    (fold &&
      ((decide (65 ≤ c.toNat) && decide (c.toNat ≤ 90) && inRanges cl (c.toNat + 32)) ||
       (decide (97 ≤ c.toNat) && decide (c.toNat ≤ 122) && inRanges cl (c.toNat - 32))))

/-- Match a class a fixed number of times at the head of the text; the rest of the text. -/
def matchRep (fold : Bool) (cl : Class) : Nat → List Char → Option (List Char)
  | 0, cs => some cs
  | _ + 1, [] => none
  | n + 1, c :: cs => if Class.mem fold cl c then matchRep fold cl n cs else none

/-- Match the items one after the other at the head of the text. -/
def matchItems (fold : Bool) : List Item → List Char → Option (List Char)
  | [], cs => some cs
  | it :: its, cs =>
    match matchRep fold it.cls it.count cs with
    | none => none
    | some rest => matchItems fold its rest

/-- A match that starts at the head of the text. -/
def Prog.matchHere (p : Prog) (cs : List Char) : Bool :=
  match matchItems p.foldCase p.items cs with
  | none => false
  | some rest => !p.eol || rest.isEmpty

/-- A match anywhere in the text, as `MatchString` searches: at the head, or, without
`^`, further on. -/
def Prog.matchList (p : Prog) : List Char → Bool
  | [] => p.matchHere []
  | c :: cs => p.matchHere (c :: cs) || (!p.bol && p.matchList cs)

/-- The function `regexp.MatchString` on the fragment: `none` when the pattern does not
compile. -/
def matchString (pattern s : String) : Option Bool :=
  (compile pattern).map (fun p => p.matchList s.toList)

end Regexp

/-- Modelled from the spec: the pattern-matching collaborator `regex`, a function of
this package declared outside `extensions.go`. It takes a value and a pattern string;
on a string it reports valid exactly when the pattern matches and a violation, in the
textual error wrapper, when it does not. The spec says nothing of an input that is not
a string nor of a pattern that does not compile; this model reports a violation there,
and also for a pattern outside the fragment that `Regexp` reads. -/
def regex (v : Value) (pattern : String) : Except Panic (Option Error) :=
  match v with
  | .of .string s =>
    if Regexp.matchString pattern s = some true then .ok none
    else .ok (some (.TextErr "regular expression mismatch"))
  | _ => .ok (some (.TextErr "regular expression mismatch"))

/-! ## The textual form of a UUID -/

/-- A hexadecimal digit, in either letter case. -/
def isHexDigit (c : Char) : Bool :=
  c ∈ ['0', '1', '2', '3', '4', '5', '6', '7', '8', '9',
       'a', 'b', 'c', 'd', 'e', 'f', 'A', 'B', 'C', 'D', 'E', 'F']

/-- The version digit: `1` to `5`. -/
def isVersionDigit (c : Char) : Bool := c ∈ ['1', '2', '3', '4', '5']

/-- The variant digit: `8`, `9`, `a` or `b`, in either letter case. -/
def isVariantDigit (c : Char) : Bool := c ∈ ['8', '9', 'a', 'b', 'A', 'B']

/-- The text is five groups of 8, 4, 4, 4 and 12 hexadecimal digits joined by hyphens,
the third group starting with a version digit and the fourth with a variant digit. -/
def IsUUIDText (s : String) : Prop :=
  ∃ g1 g2 g3 g4 g5 : List Char,
    s.toList = g1 ++ '-' :: (g2 ++ '-' :: (g3 ++ '-' :: (g4 ++ '-' :: g5))) ∧
    g1.length = 8 ∧ g2.length = 4 ∧ g3.length = 4 ∧ g4.length = 4 ∧ g5.length = 12 ∧
    (∀ c ∈ g1 ++ (g2 ++ (g3 ++ (g4 ++ g5))), isHexDigit c = true) ∧
    (∃ c : Char, g3.head? = some c ∧ isVersionDigit c = true) ∧
    (∃ c : Char, g4.head? = some c ∧ isVariantDigit c = true)

/-! ## The presence checker -/

/-- The kinds `required` accepts whatever the value: the third `case` of its switch. -/
def concreteKinds : List Kind :=
  [.String, .Slice, .Map, .Array, .Int, .Int8, .Int16, .Int32, .Int64, .Uint, .Uint8,
   .Uint16, .Uint32, .Uint64, .Uintptr, .Float32, .Float64, .Bool, .Struct]

/-- On a pointer kind `required` is decided by the nil test alone. -/
theorem required_of_ptr_kind (v : Value) (param : String) (hk : v.Kind = .Ptr) :
    required v param =
      (v.IsNil).map (fun b => if b then some Error.ErrRequired else none) := by
  unfold required
  simp only [hk]
  cases v.IsNil with
  | error e => rfl
  | ok b => cases b <;> rfl

/-- Claim C1: for every parameter string and every value whose kind is string, bool, a
signed or unsigned integer of any width, uintptr, float32, float64, array, slice, map
or struct, `required` returns no error, whatever the value is (zero or not). -/
theorem required_concrete_valid (v : Value) (param : String)
    (hk : v.Kind ∈ concreteKinds) : required v param = .ok none := by
  simp only [concreteKinds, List.mem_cons, List.mem_singleton, List.not_mem_nil,
    or_false] at hk
  unfold required
  rcases hk with h | h | h | h | h | h | h | h | h | h | h | h | h | h | h | h | h | h | h <;>
    simp only [h] <;> rfl

/-- Witness for C1 at zero values: the empty string, the integer 0, `false`, a nil
slice, an empty slice, a nil map, the float64 zero and the empty struct. -/
theorem required_concrete_valid_witness :
    required (.of .string "") "" = .ok none ∧
    required (.of .int (0 : Int)) "x" = .ok none ∧
    required (.of .bool false) "" = .ok none ∧
    required (.of (.slice .int) none) "" = .ok none ∧
    required (.of (.slice .int) (some [])) "" = .ok none ∧
    required (.of (.map .string .int) none) "" = .ok none ∧
    required (.of .float64 Float64.zero) "" = .ok none ∧
    required (.of (.struct .nil) ()) "" = .ok none :=
  ⟨required_concrete_valid _ _ (by decide), required_concrete_valid _ _ (by decide),
   required_concrete_valid _ _ (by decide), required_concrete_valid _ _ (by decide),
   required_concrete_valid _ _ (by decide), required_concrete_valid _ _ (by decide),
   required_concrete_valid _ _ (by decide), required_concrete_valid _ _ (by decide)⟩

/-- Claim C2: for every parameter string, `required` returns exactly `ErrRequired` on
the nil interface (no type information), on the nil pointer of every pointee type, and
on every nil value of pointer kind (a defined pointer type included). -/
theorem required_nil_ErrRequired (param : String) :
    required .nil param = .ok (some .ErrRequired) ∧
    (∀ t : GoType, required (.of (.ptr t) none) param = .ok (some .ErrRequired)) ∧
    (∀ v : Value, v.Kind = .Ptr → v.IsNil = .ok true →
      required v param = .ok (some .ErrRequired)) := by
  refine ⟨rfl, fun t => rfl, fun v hk hn => ?_⟩
  rw [required_of_ptr_kind v param hk, hn]
  rfl

/-- Witness for C2: the nil `*float64`, and the nil value of `type P *int`. -/
theorem required_nil_ErrRequired_witness :
    required (.of (.ptr .float64) none) "p" = .ok (some .ErrRequired) ∧
    required (.of (.named "P" (.ptr .int)) none) "p" = .ok (some .ErrRequired) :=
  ⟨(required_nil_ErrRequired "p").2.1 .float64,
   (required_nil_ErrRequired "p").2.2 (.of (.named "P" (.ptr .int)) none) rfl rfl⟩

/-- Claim C3: for every non-nil pointer `required` returns no error whatever the pointee
is, and on a value of pointer kind `required` returns no error if and only if the
pointer is not nil. -/
theorem required_pointer_valid_iff_nonnil (param : String) :
    (∀ (t : GoType) (p : Pointer t.Repr), required (.of (.ptr t) (some p)) param = .ok none) ∧
    (∀ (t : GoType) (x : Option (Pointer t.Repr)),
      required (.of (.ptr t) x) param = .ok none ↔ x ≠ none) ∧
    (∀ v : Value, v.Kind = .Ptr → (required v param = .ok none ↔ v.IsNil = .ok false)) := by
  refine ⟨fun t p => rfl, fun t x => ?_, fun v hk => ?_⟩
  · cases x with
    | none => exact ⟨fun h => (by cases h), fun h => absurd rfl h⟩
    | some p => exact ⟨fun _ h => (by cases h), fun _ => rfl⟩
  · rw [required_of_ptr_kind v param hk]
    cases v.IsNil with
    | error e => exact ⟨fun h => (by cases h), fun h => (by cases h)⟩
    | ok b => cases b <;> simp [Except.map]

/-- Witness for C3: pointers to `""`, to `0`, to `false` and to a nil pointer. -/
theorem required_pointer_valid_iff_nonnil_witness :
    required (.of (.ptr .string) (some ⟨0xc000010250, ""⟩)) "" = .ok none ∧
    required (.of (.ptr .int) (some ⟨0xc000010258, (0 : Int)⟩)) "" = .ok none ∧
    required (.of (.ptr .bool) (some ⟨0xc000010260, false⟩)) "" = .ok none ∧
    required (.of (.ptr (.ptr .int)) (some ⟨0xc000010268, none⟩)) "" = .ok none ∧
    required (.of (.named "P" (.ptr .int)) (some ⟨0xc000010270, (0 : Int)⟩)) "" = .ok none :=
  ⟨(required_pointer_valid_iff_nonnil "").1 .string _,
   (required_pointer_valid_iff_nonnil "").1 .int _,
   (required_pointer_valid_iff_nonnil "").1 .bool _,
   (required_pointer_valid_iff_nonnil "").1 (.ptr .int) _,
   ((required_pointer_valid_iff_nonnil "").2.2
     (.of (.named "P" (.ptr .int)) (some ⟨0xc000010270, (0 : Int)⟩)) rfl).2 rfl⟩

/-- Claim C4: on every input of kind func or chan, nil or not, `required` returns
`ErrUnsupported` (so neither `ErrRequired` nor no error); the kind alone decides. -/
theorem required_func_chan_unsupported (v : Value) (param : String)
    (hk : v.Kind = .Func ∨ v.Kind = .Chan) :
    required v param = .ok (some .ErrUnsupported) ∧
    required v param ≠ .ok (some .ErrRequired) ∧
    required v param ≠ .ok none := by
  have h : required v param = .ok (some .ErrUnsupported) := by
    unfold required
    rcases hk with h | h <;> simp only [h] <;> rfl
  rw [h]
  exact ⟨rfl, by decide, by decide⟩

/-- Witness for C4: a nil and a non-nil function, a nil and a non-nil channel. -/
theorem required_func_chan_unsupported_witness :
    required (.of (.func .nil .nil) none) "" = .ok (some .ErrUnsupported) ∧
    required (.of (.func .nil .nil) (some 1)) "" = .ok (some .ErrUnsupported) ∧
    required (.of (.chan .int) none) "" = .ok (some .ErrUnsupported) ∧
    required (.of (.chan .int) (some 1)) "" = .ok (some .ErrUnsupported) :=
  ⟨(required_func_chan_unsupported (.of (.func .nil .nil) none) "" (Or.inl rfl)).1,
   (required_func_chan_unsupported (.of (.func .nil .nil) (some 1)) "" (Or.inl rfl)).1,
   (required_func_chan_unsupported (.of (.chan .int) none) "" (Or.inr rfl)).1,
   (required_func_chan_unsupported (.of (.chan .int) (some 1)) "" (Or.inr rfl)).1⟩

/-! ## float64 ordering -/

namespace Float64

theorem ord_neg (x : Float64) : x.neg.ord = -x.ord := by
  cases x with
  | mk s e f he hf => cases s <;> simp [neg, ord, mag]

theorem isNaN_neg (x : Float64) : x.neg.isNaN = x.isNaN := rfl

theorem mag_of_inf (x : Float64) (he : x.expo = 2047) (hn : x.isNaN = false) :
    x.mag = 2 ^ 2098 := by
  have hf : x.frac = 0 := by simpa [isNaN, he] using hn
  simp [mag, he, hf]

theorem abs_ord (x : Float64) : |x.ord| = (x.mag : Int) := by
  unfold ord
  split <;> simp

theorem inClosed_iff (x : Float64) (n : Nat) :
    x.InClosed (-(n : ℚ)) n ↔
      x.expo ≠ 2047 ∧ -((n : Int) * 2 ^ 1074) ≤ x.ord ∧ x.ord ≤ (n : Int) * 2 ^ 1074 := by
  unfold InClosed toRat?
  have hpos : (0 : ℚ) < 2 ^ 1074 := by positivity
  have e1 : ((-((n : Int) * 2 ^ 1074) : Int) : ℚ) = -(n : ℚ) * 2 ^ 1074 := by
    push_cast
    ring
  have e2 : (((n : Int) * 2 ^ 1074 : Int) : ℚ) = (n : ℚ) * 2 ^ 1074 := by
    push_cast
    ring
  constructor
  · rintro ⟨q, hq, h1, h2⟩
    split at hq
    · cases hq
    · rename_i he
      injection hq with hq
      subst hq
      rw [le_div_iff₀ hpos, ← e1] at h1
      rw [div_le_iff₀ hpos, ← e2] at h2
      exact ⟨he, Int.cast_le.mp h1, Int.cast_le.mp h2⟩
  · rintro ⟨he, h1, h2⟩
    refine ⟨_, if_neg he, ?_, ?_⟩
    · rw [le_div_iff₀ hpos, ← e1]
      exact Int.cast_le.mpr h1
    · rw [div_le_iff₀ hpos, ← e2]
      exact Int.cast_le.mpr h2

theorem range_check (x c : Float64) (n : Nat) (hc : c.ord = (n : Int) * 2 ^ 1074)
    (hcn : c.isNaN = false) (hbig : (n : Int) * 2 ^ 1074 < 2 ^ 2098) :
    (x.lt c.neg || x.gt c) = false ↔ x.isNaN = true ∨ x.InClosed (-(n : ℚ)) n := by
  rw [inClosed_iff]
  unfold gt lt
  rw [isNaN_neg, ord_neg, hcn, hc]
  cases hx : x.isNaN with
  | true => simp
  | false =>
    simp only [Bool.not_false, Bool.true_and, Bool.and_true, Bool.or_eq_false_iff,
      decide_eq_false_iff_not, not_lt, false_or, Bool.false_eq_true]
    constructor
    · rintro ⟨h1, h2⟩
      refine ⟨fun he => ?_, h1, h2⟩
      have hm := mag_of_inf x he hx
      have ha := abs_ord x
      rw [hm] at ha
      have : |x.ord| ≤ (n : Int) * 2 ^ 1074 := abs_le.mpr ⟨h1, h2⟩
      rw [ha] at this
      push_cast at this
      omega
    · rintro ⟨_, h1, h2⟩
      exact ⟨h1, h2⟩


theorem ord_c90 : c90.ord = ((90 : Nat) : Int) * 2 ^ 1074 := by
  norm_num [ord, mag, c90]

theorem ord_c180 : c180.ord = ((180 : Nat) : Int) * 2 ^ 1074 := by
  norm_num [ord, mag, c180]

theorem toRat?_c90 : c90.toRat? = some 90 := by
  unfold toRat?
  rw [if_neg (by decide), ord_c90]
  norm_num

theorem not_inClosed_of_outside (lo hi : ℚ) (x : Float64)
    (h : x.Above hi ∨ x.Below lo) : x.isNaN = false ∧ ¬ x.InClosed lo hi := by
  have hinf : x.isInf = true → x.isNaN = false ∧ ¬ x.InClosed lo hi := by
    intro hi'
    simp only [isInf, Bool.and_eq_true, beq_iff_eq] at hi'
    refine ⟨by simp [isNaN, hi'.1, hi'.2], ?_⟩
    rintro ⟨q, hq, -⟩
    simp [toRat?, hi'.1] at hq
  have hfin : ∀ q : ℚ, x.toRat? = some q → x.isNaN = false := by
    intro q hq
    unfold toRat? at hq
    split at hq
    · cases hq
    · rename_i he
      simp [isNaN, he]
  rcases h with (⟨h, -⟩ | ⟨q, hq, hlt⟩) | (⟨h, -⟩ | ⟨q, hq, hlt⟩)
  · exact hinf h
  · refine ⟨hfin q hq, ?_⟩
    rintro ⟨q', hq', -, h2⟩
    rw [hq] at hq'
    injection hq' with e
    subst e
    exact absurd hlt (not_lt.mpr h2)
  · exact hinf h
  · refine ⟨hfin q hq, ?_⟩
    rintro ⟨q', hq', h1, -⟩
    rw [hq] at hq'
    injection hq' with e
    subst e
    exact absurd hlt (not_lt.mpr h1)

end Float64

theorem validateLatitude_eq_none_iff (L : Lib) (v : Float64) :
    validateLatitude L v = none ↔ v.isNaN = true ∨ v.InClosed (-90) 90 := by
  have h := Float64.range_check v Float64.c90 90 Float64.ord_c90 rfl (by norm_num)
  simp only [Nat.cast_ofNat] at h
  rw [← h]
  unfold validateLatitude
  cases hb : (v.lt _ || v.gt _) <;> simp

theorem validateLongitude_eq_none_iff (L : Lib) (v : Float64) :
    validateLongitude L v = none ↔ v.isNaN = true ∨ v.InClosed (-180) 180 := by
  have h := Float64.range_check v Float64.c180 180 Float64.ord_c180 rfl (by norm_num)
  simp only [Nat.cast_ofNat] at h
  rw [← h]
  unfold validateLongitude
  cases hb : (v.lt _ || v.gt _) <;> simp

theorem validateLatitude_cases (L : Lib) (v : Float64) :
    validateLatitude L v = none ∨
      validateLatitude L v = some (.TextErr (L.formatG v ++ " is not a valid latitude")) := by
  unfold validateLatitude
  split
  · exact Or.inr rfl
  · exact Or.inl rfl

theorem validateLongitude_cases (L : Lib) (v : Float64) :
    validateLongitude L v = none ∨
      validateLongitude L v = some (.TextErr (L.formatG v ++ " is not a valid longitude")) := by
  unfold validateLongitude
  split
  · exact Or.inr rfl
  · exact Or.inl rfl

/-- Outside `[-90, 90]` and not NaN: the closure reports the value. -/
theorem validateLatitude_of_outside (L : Lib) (v : Float64) (hn : v.isNaN = false)
    (ho : ¬ v.InClosed (-90) 90) :
    validateLatitude L v = some (.TextErr (L.formatG v ++ " is not a valid latitude")) := by
  rcases validateLatitude_cases L v with h | h
  · rcases (validateLatitude_eq_none_iff L v).mp h with h' | h'
    · rw [hn] at h'
      cases h'
    · exact absurd h' ho
  · exact h

/-- Outside `[-180, 180]` and not NaN: the closure reports the value. -/
theorem validateLongitude_of_outside (L : Lib) (v : Float64) (hn : v.isNaN = false)
    (ho : ¬ v.InClosed (-180) 180) :
    validateLongitude L v = some (.TextErr (L.formatG v ++ " is not a valid longitude")) := by
  rcases validateLongitude_cases L v with h | h
  · rcases (validateLongitude_eq_none_iff L v).mp h with h' | h'
    · rw [hn] at h'
      cases h'
    · exact absurd h' ho
  · exact h

namespace Float64

theorem toRat?_c180 : c180.toRat? = some 180 := by
  unfold toRat?
  rw [if_neg (by decide), ord_c180]
  norm_num

theorem toRat?_c45 : c45.toRat? = some 45 := by
  unfold toRat?
  rw [if_neg (by decide)]
  norm_num [ord, mag, c45]

theorem toRat?_c91 : c91.toRat? = some 91 := by
  unfold toRat?
  rw [if_neg (by decide)]
  norm_num [ord, mag, c91]

theorem toRat?_neg (x : Float64) (q : ℚ) (h : x.toRat? = some q) :
    x.neg.toRat? = some (-q) := by
  unfold toRat? at h ⊢
  have he : x.neg.expo = x.expo := rfl
  rw [he]
  split at h
  · cases h
  · rename_i hx
    rw [if_neg hx, ord_neg]
    injection h with h
    rw [← h]
    push_cast
    ring_nf

/-- The exact value of `c90_0000001`, `90 + 7036874 / 2^46`. -/
theorem toRat?_c90_0000001 : c90_0000001.toRat? = some (90 + 7036874 / 2 ^ 46) := by
  unfold toRat?
  rw [if_neg (by decide)]
  norm_num [ord, mag, c90_0000001]

/-- The exact value of `c90_0001`, `90 + 7036874418 / 2^46`. -/
theorem toRat?_c90_0001 : c90_0001.toRat? = some (90 + 7036874418 / 2 ^ 46) := by
  unfold toRat?
  rw [if_neg (by decide)]
  norm_num [ord, mag, c90_0001]

/-- Both decimal literals round to the stated numbers: the error is at most half a unit
in the last place, `2^-47` for numbers in `[64, 128)`. -/
theorem decimal_literals_nearest :
    |(90 + 7036874 / 2 ^ 46 : ℚ) - 900000001 / 10000000| ≤ 1 / 2 ^ 47 ∧
    |(90 + 7036874418 / 2 ^ 46 : ℚ) - 900001 / 10000| ≤ 1 / 2 ^ 47 := by
  constructor <;> rw [abs_le] <;> constructor <;> norm_num

end Float64

/-! ## The coordinate checkers on a float64 -/

/-- Claim C5 (as stated, refuted): NaN is a float64 outside the closed interval
`[-90, 90]`, and `latitude` returns no error for it. -/
theorem latitude_NaN_outside_and_valid :
    ¬ Float64.NaN.InClosed (-90) 90 ∧
    latitude sampleLib (.of .float64 Float64.NaN) "" = .ok none := by
  refine ⟨?_, by decide⟩
  rintro ⟨q, hq, -⟩
  simp [Float64.toRat?, Float64.NaN] at hq

/-- Claim C5 (amended): for every float64 `v` passed by value, `latitude` returns no error
if `v` lies in `[-90, 90]`, and returns an error, the `TextErr` built from the `%g`
rendering of `v`, for every `v` other than NaN outside that closed interval. -/
theorem latitude_float64_range (L : Lib) (v : Float64) (param : String) :
    (v.InClosed (-90) 90 → latitude L (.of .float64 v) param = .ok none) ∧
    (v.isNaN = false → ¬ v.InClosed (-90) 90 →
      latitude L (.of .float64 v) param =
        .ok (some (.TextErr (L.formatG v ++ " is not a valid latitude")))) := by
  constructor
  · intro h
    show Except.ok (validateLatitude L v) = .ok none
    rw [(validateLatitude_eq_none_iff L v).mpr (Or.inr h)]
  · intro hn ho
    show Except.ok (validateLatitude L v) = _
    rw [validateLatitude_of_outside L v hn ho]

/-- Witness for C5: `45` is accepted; `90.0001`, `-91` and `+Inf` are rejected. -/
theorem latitude_float64_range_witness :
    latitude sampleLib (.of .float64 Float64.c45) "" = .ok none ∧
    latitude sampleLib (.of .float64 Float64.c90_0001) "" =
      .ok (some (.TextErr "90.0001 is not a valid latitude")) ∧
    latitude sampleLib (.of .float64 Float64.c91.neg) "" =
      .ok (some (.TextErr "-91 is not a valid latitude")) ∧
    latitude sampleLib (.of .float64 Float64.posInf) "" =
      .ok (some (.TextErr "+Inf is not a valid latitude")) :=
  ⟨(latitude_float64_range sampleLib Float64.c45 "").1
      ⟨45, Float64.toRat?_c45, by norm_num, by norm_num⟩,
   (latitude_float64_range sampleLib Float64.c90_0001 "").2 (by decide)
      (Float64.not_inClosed_of_outside _ _ _
        (Or.inl (Or.inr ⟨_, Float64.toRat?_c90_0001, by norm_num⟩))).2,
   (latitude_float64_range sampleLib Float64.c91.neg "").2 (by decide)
      (Float64.not_inClosed_of_outside _ _ _
        (Or.inr (Or.inr ⟨_, Float64.toRat?_neg _ _ Float64.toRat?_c91, by norm_num⟩))).2,
   (latitude_float64_range sampleLib Float64.posInf "").2 (by decide)
      (Float64.not_inClosed_of_outside _ _ _ (Or.inl (Or.inl ⟨by decide, by decide⟩))).2⟩

/-- Claim C6 (as stated, refuted): NaN is a float64 outside the closed interval
`[-180, 180]`, and `longitude` returns no error for it. -/
theorem longitude_NaN_outside_and_valid :
    ¬ Float64.NaN.InClosed (-180) 180 ∧
    longitude sampleLib (.of .float64 Float64.NaN) "" = .ok none := by
  refine ⟨?_, by decide⟩
  rintro ⟨q, hq, -⟩
  simp [Float64.toRat?, Float64.NaN] at hq

/-- Claim C6 (amended): for every float64 `v` passed by value, `longitude` returns no
error if `v` lies in `[-180, 180]`, and returns an error, the `TextErr` built from the
`%g` rendering of `v`, for every `v` other than NaN outside that closed interval. -/
theorem longitude_float64_range (L : Lib) (v : Float64) (param : String) :
    (v.InClosed (-180) 180 → longitude L (.of .float64 v) param = .ok none) ∧
    (v.isNaN = false → ¬ v.InClosed (-180) 180 →
      longitude L (.of .float64 v) param =
        .ok (some (.TextErr (L.formatG v ++ " is not a valid longitude")))) := by
  constructor
  · intro h
    show Except.ok (validateLongitude L v) = .ok none
    rw [(validateLongitude_eq_none_iff L v).mpr (Or.inr h)]
  · intro hn ho
    show Except.ok (validateLongitude L v) = _
    rw [validateLongitude_of_outside L v hn ho]

/-- Witness for C6: `91` and `-180` are accepted; `+Inf` is rejected. -/
theorem longitude_float64_range_witness :
    longitude sampleLib (.of .float64 Float64.c91) "" = .ok none ∧
    longitude sampleLib (.of .float64 Float64.c180.neg) "" = .ok none ∧
    longitude sampleLib (.of .float64 Float64.posInf) "" =
      .ok (some (.TextErr "+Inf is not a valid longitude")) :=
  ⟨(longitude_float64_range sampleLib Float64.c91 "").1
      ⟨91, Float64.toRat?_c91, by norm_num, by norm_num⟩,
   (longitude_float64_range sampleLib Float64.c180.neg "").1
      ⟨-180, Float64.toRat?_neg _ _ Float64.toRat?_c180, by norm_num, by norm_num⟩,
   (longitude_float64_range sampleLib Float64.posInf "").2 (by decide)
      (Float64.not_inClosed_of_outside _ _ _ (Or.inl (Or.inl ⟨by decide, by decide⟩))).2⟩

/-- Claim C7: the bounds are inclusive. `latitude` accepts `90` and `-90`, `longitude`
accepts `180` and `-180`; every float64 strictly above the upper bound or strictly
below the lower bound is rejected, among them `90.0000001` and `-90.0000001`. -/
theorem bounds_inclusive (L : Lib) (param : String) :
    latitude L (.of .float64 Float64.c90) param = .ok none ∧
    latitude L (.of .float64 Float64.c90.neg) param = .ok none ∧
    longitude L (.of .float64 Float64.c180) param = .ok none ∧
    longitude L (.of .float64 Float64.c180.neg) param = .ok none ∧
    (∀ v : Float64, v.Above 90 ∨ v.Below (-90) →
      latitude L (.of .float64 v) param =
        .ok (some (.TextErr (L.formatG v ++ " is not a valid latitude")))) ∧
    (∀ v : Float64, v.Above 180 ∨ v.Below (-180) →
      longitude L (.of .float64 v) param =
        .ok (some (.TextErr (L.formatG v ++ " is not a valid longitude")))) ∧
    latitude L (.of .float64 Float64.c90_0000001) param =
      .ok (some (.TextErr (L.formatG Float64.c90_0000001 ++ " is not a valid latitude"))) ∧
    latitude L (.of .float64 Float64.c90_0000001.neg) param =
      .ok (some (.TextErr (L.formatG Float64.c90_0000001.neg ++ " is not a valid latitude"))) := by
  have hlat : ∀ v : Float64, v.Above 90 ∨ v.Below (-90) →
      latitude L (.of .float64 v) param =
        .ok (some (.TextErr (L.formatG v ++ " is not a valid latitude"))) := by
    intro v hv
    have h := Float64.not_inClosed_of_outside (-90) 90 v hv
    show Except.ok (validateLatitude L v) = _
    rw [validateLatitude_of_outside L v h.1 h.2]
  have hlon : ∀ v : Float64, v.Above 180 ∨ v.Below (-180) →
      longitude L (.of .float64 v) param =
        .ok (some (.TextErr (L.formatG v ++ " is not a valid longitude"))) := by
    intro v hv
    have h := Float64.not_inClosed_of_outside (-180) 180 v hv
    show Except.ok (validateLongitude L v) = _
    rw [validateLongitude_of_outside L v h.1 h.2]
  refine ⟨?_, ?_, ?_, ?_, hlat, hlon, ?_, ?_⟩
  · show Except.ok (validateLatitude L Float64.c90) = .ok none
    rw [(validateLatitude_eq_none_iff L _).mpr
      (Or.inr ⟨90, Float64.toRat?_c90, by norm_num, by norm_num⟩)]
  · show Except.ok (validateLatitude L Float64.c90.neg) = .ok none
    rw [(validateLatitude_eq_none_iff L _).mpr
      (Or.inr ⟨-90, Float64.toRat?_neg _ _ Float64.toRat?_c90, by norm_num, by norm_num⟩)]
  · show Except.ok (validateLongitude L Float64.c180) = .ok none
    rw [(validateLongitude_eq_none_iff L _).mpr
      (Or.inr ⟨180, Float64.toRat?_c180, by norm_num, by norm_num⟩)]
  · show Except.ok (validateLongitude L Float64.c180.neg) = .ok none
    rw [(validateLongitude_eq_none_iff L _).mpr
      (Or.inr ⟨-180, Float64.toRat?_neg _ _ Float64.toRat?_c180, by norm_num, by norm_num⟩)]
  · exact hlat _ (Or.inl (Or.inr ⟨_, Float64.toRat?_c90_0000001, by norm_num⟩))
  · exact hlat _ (Or.inr (Or.inr
      ⟨_, Float64.toRat?_neg _ _ Float64.toRat?_c90_0000001, by norm_num⟩))

/-- Witness for C7: `91`, strictly above `90`, is rejected as a latitude, and `-Inf`,
strictly below `-180`, is rejected as a longitude. -/
theorem bounds_inclusive_witness :
    latitude sampleLib (.of .float64 Float64.c91) "" =
      .ok (some (.TextErr "91 is not a valid latitude")) ∧
    longitude sampleLib (.of .float64 Float64.posInf.neg) "" =
      .ok (some (.TextErr "-Inf is not a valid longitude")) :=
  ⟨(bounds_inclusive sampleLib "").2.2.2.2.1 Float64.c91
      (Or.inl (Or.inr ⟨91, Float64.toRat?_c91, by norm_num⟩)),
   (bounds_inclusive sampleLib "").2.2.2.2.2.1 Float64.posInf.neg
      (Or.inr (Or.inl ⟨by decide, by decide⟩))⟩

/-! ## Nil references and strings -/

/-- Claim C8: on a nil `*float64` and on a nil `*string` both `latitude` and `longitude`
return no error for every parameter string; they return normally, so the nil pointer
is not dereferenced. -/
theorem nil_reference_skipped (L : Lib) (param : String) :
    latitude L (.of (.ptr .float64) none) param = .ok none ∧
    latitude L (.of (.ptr .string) none) param = .ok none ∧
    longitude L (.of (.ptr .float64) none) param = .ok none ∧
    longitude L (.of (.ptr .string) none) param = .ok none :=
  ⟨rfl, rfl, rfl, rfl⟩

/-- Claim C9: for every string `s` the float parser accepts with result `f`,
`latitude` on `s` returns exactly what it returns on `f`, and `longitude` likewise;
with a parser that reads `"45.0"` as `45`, `latitude` on `"45.0"` returns no error. -/
theorem string_agrees_with_parsed_float (L : Lib) (param : String) :
    (∀ (s : String) (f : Float64), L.parseFloat s = some f →
      latitude L (.of .string s) param = latitude L (.of .float64 f) param ∧
      longitude L (.of .string s) param = longitude L (.of .float64 f) param) ∧
    (L.parseFloat "45.0" = some Float64.c45 →
      latitude L (.of .string "45.0") param = .ok none) := by
  have key : ∀ (s : String) (f : Float64), L.parseFloat s = some f →
      latitude L (.of .string s) param = latitude L (.of .float64 f) param ∧
      longitude L (.of .string s) param = longitude L (.of .float64 f) param := by
    intro s f h
    constructor
    · show (match L.parseFloat s with
        | none => pure (some (.TextErr (L.formatV (.of .string s) ++ " is not a valid latitude")))
        | some f => pure (validateLatitude L f)) = (pure (validateLatitude L f) : Except Panic _)
      rw [h]
    · show (match L.parseFloat s with
        | none => pure (some (.TextErr (L.formatV (.of .string s) ++ " is not a valid longitude")))
        | some f => pure (validateLongitude L f)) = (pure (validateLongitude L f) : Except Panic _)
      rw [h]
  refine ⟨key, fun h => ?_⟩
  rw [(key "45.0" Float64.c45 h).1]
  show Except.ok (validateLatitude L Float64.c45) = .ok none
  rw [(validateLatitude_eq_none_iff L _).mpr
    (Or.inr ⟨45, Float64.toRat?_c45, by norm_num, by norm_num⟩)]

/-- Witness for C9: the sample parser reads `"45.0"` as `45` and `"91"` as `91`. -/
theorem string_agrees_with_parsed_float_witness :
    latitude sampleLib (.of .string "45.0") "" = .ok none ∧
    latitude sampleLib (.of .string "91") "" =
      latitude sampleLib (.of .float64 Float64.c91) "" ∧
    longitude sampleLib (.of .string "91") "" = .ok none :=
  ⟨(string_agrees_with_parsed_float sampleLib "").2 (by decide),
   ((string_agrees_with_parsed_float sampleLib "").1 "91" Float64.c91 (by decide)).1,
   (((string_agrees_with_parsed_float sampleLib "").1 "91" Float64.c91 (by decide)).2).trans
     (by decide)⟩

/-- Claim C10: for every string the float parser rejects, passed by value or through a
non-nil `*string`, `latitude` and `longitude` return a `TextErr` built from the `%v`
rendering of the operand; a `TextErr` is neither `ErrUnsupported` nor `ErrRequired`
nor the absence of an error, and the range check (whose message uses `%g`) is not
reached. -/
theorem unparseable_string_TextErr (L : Lib) (s : String) (param : String)
    (h : L.parseFloat s = none) :
    latitude L (.of .string s) param =
      .ok (some (.TextErr (L.formatV (.of .string s) ++ " is not a valid latitude"))) ∧
    longitude L (.of .string s) param =
      .ok (some (.TextErr (L.formatV (.of .string s) ++ " is not a valid longitude"))) ∧
    (∀ addr : Nat, latitude L (.of (.ptr .string) (some ⟨addr, s⟩)) param =
      .ok (some (.TextErr
        (L.formatV (.of (.ptr .string) (some ⟨addr, s⟩)) ++ " is not a valid latitude")))) ∧
    (∀ addr : Nat, longitude L (.of (.ptr .string) (some ⟨addr, s⟩)) param =
      .ok (some (.TextErr
        (L.formatV (.of (.ptr .string) (some ⟨addr, s⟩)) ++ " is not a valid longitude")))) ∧
    (∀ msg : String,
      (.ok (some (.TextErr msg)) : Except Panic (Option Error)) ≠ .ok (some .ErrUnsupported) ∧
      (.ok (some (.TextErr msg)) : Except Panic (Option Error)) ≠ .ok (some .ErrRequired) ∧
      (.ok (some (.TextErr msg)) : Except Panic (Option Error)) ≠ .ok none) := by
  refine ⟨?_, ?_, fun addr => ?_, fun addr => ?_, fun msg => ⟨?_, ?_, ?_⟩⟩
  · show (match L.parseFloat s with
      | none => pure (some (.TextErr (L.formatV (.of .string s) ++ " is not a valid latitude")))
      | some f => pure (validateLatitude L f)) = (_ : Except Panic _)
    rw [h]
    rfl
  · show (match L.parseFloat s with
      | none => pure (some (.TextErr (L.formatV (.of .string s) ++ " is not a valid longitude")))
      | some f => pure (validateLongitude L f)) = (_ : Except Panic _)
    rw [h]
    rfl
  · show (match L.parseFloat s with
      | none => pure (some (.TextErr
          (L.formatV (.of (.ptr .string) (some ⟨addr, s⟩)) ++ " is not a valid latitude")))
      | some f => pure (validateLatitude L f)) = (_ : Except Panic _)
    rw [h]
    rfl
  · show (match L.parseFloat s with
      | none => pure (some (.TextErr
          (L.formatV (.of (.ptr .string) (some ⟨addr, s⟩)) ++ " is not a valid longitude")))
      | some f => pure (validateLongitude L f)) = (_ : Except Panic _)
    rw [h]
    rfl
  · intro e
    cases e
  · intro e
    cases e
  · intro e
    cases e

/-- Witness for C10: the sample parser rejects `"not-a-number"` and `""`. -/
theorem unparseable_string_TextErr_witness :
    latitude sampleLib (.of .string "not-a-number") "" =
      .ok (some (.TextErr "not-a-number is not a valid latitude")) ∧
    longitude sampleLib (.of .string "") "" =
      .ok (some (.TextErr " is not a valid longitude")) ∧
    latitude sampleLib (.of (.ptr .string) (some ⟨0xc000010250, "not-a-number"⟩)) "" =
      .ok (some (.TextErr "0xc000010250 is not a valid latitude")) :=
  ⟨(unparseable_string_TextErr sampleLib "not-a-number" "" (by decide)).1,
   (unparseable_string_TextErr sampleLib "" "" (by decide)).2.1,
   (unparseable_string_TextErr sampleLib "not-a-number" "" (by decide)).2.2.1 0xc000010250⟩

/-! ## Case analysis of the coordinate checkers -/

/-- The type switch sends every dynamic type but the four it names to `default`. -/
theorem latitude_default (L : Lib) (i : Value) (param : String)
    (h1 : i.dynType ≠ some .float64) (h2 : i.dynType ≠ some (.ptr .float64))
    (h3 : i.dynType ≠ some .string) (h4 : i.dynType ≠ some (.ptr .string)) :
    latitude L i param = .ok (some (.TextErr (L.formatV i ++ " is not a valid latitude"))) := by
  cases i with
  | nil => rfl
  | of t x =>
    cases t with
    | float64 => exact absurd rfl h1
    | string => exact absurd rfl h3
    | ptr e =>
      cases e with
      | float64 => exact absurd rfl h2
      | string => exact absurd rfl h4
      | _ => rfl
    | _ => rfl

/-- The type switch of `longitude` has the same `default`. -/
theorem longitude_default (L : Lib) (i : Value) (param : String)
    (h1 : i.dynType ≠ some .float64) (h2 : i.dynType ≠ some (.ptr .float64))
    (h3 : i.dynType ≠ some .string) (h4 : i.dynType ≠ some (.ptr .string)) :
    longitude L i param = .ok (some (.TextErr (L.formatV i ++ " is not a valid longitude"))) := by
  cases i with
  | nil => rfl
  | of t x =>
    cases t with
    | float64 => exact absurd rfl h1
    | string => exact absurd rfl h3
    | ptr e =>
      cases e with
      | float64 => exact absurd rfl h2
      | string => exact absurd rfl h4
      | _ => rfl
    | _ => rfl

/-- What `latitude` does with a string, by value. -/
theorem latitude_string (L : Lib) (s : String) (param : String) :
    latitude L (.of .string s) param =
      match L.parseFloat s with
      | none => .ok (some (.TextErr (L.formatV (.of .string s) ++ " is not a valid latitude")))
      | some f => .ok (validateLatitude L f) := by
  show (match L.parseFloat s with
    | none => pure (some (.TextErr (L.formatV (.of .string s) ++ " is not a valid latitude")))
    | some f => pure (validateLatitude L f)) = (_ : Except Panic _)
  cases L.parseFloat s <;> rfl

/-- What `latitude` does with a non-nil `*string`. -/
theorem latitude_ptr_string (L : Lib) (p : Pointer String) (param : String) :
    latitude L (.of (.ptr .string) (some p)) param =
      match L.parseFloat p.target with
      | none => .ok (some (.TextErr
          (L.formatV (.of (.ptr .string) (some p)) ++ " is not a valid latitude")))
      | some f => .ok (validateLatitude L f) := by
  show (match L.parseFloat p.target with
    | none => pure (some (.TextErr
        (L.formatV (.of (.ptr .string) (some p)) ++ " is not a valid latitude")))
    | some f => pure (validateLatitude L f)) = (_ : Except Panic _)
  cases L.parseFloat p.target <;> rfl

/-- What `longitude` does with a string, by value. -/
theorem longitude_string (L : Lib) (s : String) (param : String) :
    longitude L (.of .string s) param =
      match L.parseFloat s with
      | none => .ok (some (.TextErr (L.formatV (.of .string s) ++ " is not a valid longitude")))
      | some f => .ok (validateLongitude L f) := by
  show (match L.parseFloat s with
    | none => pure (some (.TextErr (L.formatV (.of .string s) ++ " is not a valid longitude")))
    | some f => pure (validateLongitude L f)) = (_ : Except Panic _)
  cases L.parseFloat s <;> rfl

/-- What `longitude` does with a non-nil `*string`. -/
theorem longitude_ptr_string (L : Lib) (p : Pointer String) (param : String) :
    longitude L (.of (.ptr .string) (some p)) param =
      match L.parseFloat p.target with
      | none => .ok (some (.TextErr
          (L.formatV (.of (.ptr .string) (some p)) ++ " is not a valid longitude")))
      | some f => .ok (validateLongitude L f) := by
  show (match L.parseFloat p.target with
    | none => pure (some (.TextErr
        (L.formatV (.of (.ptr .string) (some p)) ++ " is not a valid longitude")))
    | some f => pure (validateLongitude L f)) = (_ : Except Panic _)
  cases L.parseFloat p.target <;> rfl

/-- On one input the two checkers take the same branch: both run the range check on
the same number, or both skip a nil reference, or both report the same operand. -/
theorem coordinate_cases (L : Lib) (i : Value) (p q : String) :
    (∃ f : Float64, latitude L i p = .ok (validateLatitude L f) ∧
      longitude L i q = .ok (validateLongitude L f)) ∨
    (latitude L i p = .ok none ∧ longitude L i q = .ok none) ∨
    (∃ pre : String,
      latitude L i p = .ok (some (.TextErr (pre ++ " is not a valid latitude"))) ∧
      longitude L i q = .ok (some (.TextErr (pre ++ " is not a valid longitude")))) := by
  have hdef : ∀ j : Value, j.dynType ≠ some .float64 → j.dynType ≠ some (.ptr .float64) →
      j.dynType ≠ some .string → j.dynType ≠ some (.ptr .string) →
      ∃ pre : String,
        latitude L j p = .ok (some (.TextErr (pre ++ " is not a valid latitude"))) ∧
        longitude L j q = .ok (some (.TextErr (pre ++ " is not a valid longitude"))) :=
    fun j h1 h2 h3 h4 =>
      ⟨_, latitude_default L j p h1 h2 h3 h4, longitude_default L j q h1 h2 h3 h4⟩
  have hstr : ∀ (s : String) (j : Value),
      (latitude L j p = match L.parseFloat s with
        | none => .ok (some (.TextErr (L.formatV j ++ " is not a valid latitude")))
        | some f => .ok (validateLatitude L f)) →
      (longitude L j q = match L.parseFloat s with
        | none => .ok (some (.TextErr (L.formatV j ++ " is not a valid longitude")))
        | some f => .ok (validateLongitude L f)) →
      (∃ f : Float64, latitude L j p = .ok (validateLatitude L f) ∧
        longitude L j q = .ok (validateLongitude L f)) ∨
      (latitude L j p = .ok none ∧ longitude L j q = .ok none) ∨
      (∃ pre : String,
        latitude L j p = .ok (some (.TextErr (pre ++ " is not a valid latitude"))) ∧
        longitude L j q = .ok (some (.TextErr (pre ++ " is not a valid longitude")))) := by
    intro s j ha hb
    cases h : L.parseFloat s with
    | none =>
      rw [h] at ha hb
      exact Or.inr (Or.inr ⟨_, ha, hb⟩)
    | some f =>
      rw [h] at ha hb
      exact Or.inl ⟨f, ha, hb⟩
  cases i with
  | nil => exact Or.inr (Or.inr (hdef _ (by simp [Value.dynType]) (by simp [Value.dynType])
      (by simp [Value.dynType]) (by simp [Value.dynType])))
  | of t x =>
    cases t with
    | float64 => exact Or.inl ⟨x, rfl, rfl⟩
    | string => exact hstr x _ (latitude_string L x p) (longitude_string L x q)
    | ptr e =>
      cases e with
      | float64 =>
        cases x with
        | none => exact Or.inr (Or.inl ⟨rfl, rfl⟩)
        | some ptr => exact Or.inl ⟨ptr.target, rfl, rfl⟩
      | string =>
        cases x with
        | none => exact Or.inr (Or.inl ⟨rfl, rfl⟩)
        | some ptr =>
          exact hstr ptr.target _ (latitude_ptr_string L ptr p) (longitude_ptr_string L ptr q)
      | _ => exact Or.inr (Or.inr (hdef _ (by simp [Value.dynType])
          (by simp [Value.dynType]) (by simp [Value.dynType]) (by simp [Value.dynType])))
    | _ => exact Or.inr (Or.inr (hdef _ (by simp [Value.dynType])
        (by simp [Value.dynType]) (by simp [Value.dynType]) (by simp [Value.dynType])))

/-! ## Totality -/

/-- The nil test does not panic on a type of pointer or interface kind. -/
theorem GoType.nilTest_ok : (t : GoType) → (x : t.Repr) →
    (t.Kind = .Ptr ∨ t.Kind = .Interface) → ∃ b : Bool, t.IsNil x = .ok b
  | .ptr _, x, _ => ⟨_, rfl⟩
  | .interface _, x, _ => ⟨_, rfl⟩
  | .named _ u, x, h => GoType.nilTest_ok u x h
  | .chan _, x, _ => ⟨_, rfl⟩
  | .func _ _, x, _ => ⟨_, rfl⟩
  | .map _ _, x, _ => ⟨_, rfl⟩
  | .slice _, x, _ => ⟨_, rfl⟩
  | .unsafePointer, x, _ => ⟨_, rfl⟩
  | .bool, _, h => by simp [GoType.Kind] at h
  | .int, _, h => by simp [GoType.Kind] at h
  | .int8, _, h => by simp [GoType.Kind] at h
  | .int16, _, h => by simp [GoType.Kind] at h
  | .int32, _, h => by simp [GoType.Kind] at h
  | .int64, _, h => by simp [GoType.Kind] at h
  | .uint, _, h => by simp [GoType.Kind] at h
  | .uint8, _, h => by simp [GoType.Kind] at h
  | .uint16, _, h => by simp [GoType.Kind] at h
  | .uint32, _, h => by simp [GoType.Kind] at h
  | .uint64, _, h => by simp [GoType.Kind] at h
  | .uintptr, _, h => by simp [GoType.Kind] at h
  | .float32, _, h => by simp [GoType.Kind] at h
  | .float64, _, h => by simp [GoType.Kind] at h
  | .complex64, _, h => by simp [GoType.Kind] at h
  | .complex128, _, h => by simp [GoType.Kind] at h
  | .string, _, h => by simp [GoType.Kind] at h
  | .array _ _, _, h => by simp [GoType.Kind] at h
  | .struct _, _, h => by simp [GoType.Kind] at h

/-- The nil test does not panic on a value of pointer or interface kind. -/
theorem Value.isNil_ok (v : Value) (h : v.Kind = .Ptr ∨ v.Kind = .Interface) :
    ∃ b : Bool, v.IsNil = .ok b := by
  cases v with
  | nil => simp [Value.Kind] at h
  | of t x => exact GoType.nilTest_ok t x h

/-- The function `required` returns on every input. -/
theorem required_returns (v : Value) (param : String) :
    ∃ r : Option Error, required v param = .ok r := by
  have hnil := Value.isNil_ok v
  unfold required
  cases hk : v.Kind <;> simp only [hk] at hnil ⊢ <;>
    first
    | exact ⟨_, rfl⟩
    | (obtain ⟨b, hb⟩ := hnil (by simp)
       rw [hb]
       cases b <;> exact ⟨_, rfl⟩)

namespace Float64

theorem toRat?_c120 : c120.toRat? = some 120 := by
  unfold toRat?
  rw [if_neg (by decide)]
  norm_num [ord, mag, c120]

/-- A closed interval inside another: membership carries over. -/
theorem InClosed.mono {lo hi lo' hi' : ℚ} {x : Float64} (h : x.InClosed lo hi)
    (hlo : lo' ≤ lo) (hhi : hi ≤ hi') : x.InClosed lo' hi' := by
  obtain ⟨q, hq, h1, h2⟩ := h
  exact ⟨q, hq, le_trans hlo h1, le_trans h2 hhi⟩

end Float64

/-- A number the latitude range check accepts is accepted by the longitude one. -/
theorem validateLongitude_of_validateLatitude (L : Lib) (f : Float64)
    (h : validateLatitude L f = none) : validateLongitude L f = none := by
  rw [validateLongitude_eq_none_iff]
  rcases (validateLatitude_eq_none_iff L f).mp h with hn | hc
  · exact Or.inl hn
  · exact Or.inr (hc.mono (by norm_num) (by norm_num))

/-- Two messages naming different axes are different strings. -/
theorem axis_suffix_ne (a b : String) :
    a ++ " is not a valid latitude" ≠ b ++ " is not a valid longitude" := by
  intro h
  have h2 := congrArg (fun s : String => s.data.reverse.take 6) h
  simp only [String.data_append, List.reverse_append] at h2
  rw [List.take_append_of_le_length (by decide), List.take_append_of_le_length (by decide)] at h2
  revert h2
  decide

/-! ## Messages, other shapes, totality and relations between the checkers -/

/-- Claim C11 (the code at the failing input): through a non-nil `*string` the message
of `latitude` and of `longitude` starts with the address of the pointer, not with the
text `not-a-number`; by value the message starts with the text. -/
theorem pointer_message_holds_address :
    latitude sampleLib (.of (.ptr .string) (some ⟨0xc000010250, "not-a-number"⟩)) "" =
      .ok (some (.TextErr "0xc000010250 is not a valid latitude")) ∧
    longitude sampleLib (.of (.ptr .string) (some ⟨0xc000010250, "not-a-number"⟩)) "" =
      .ok (some (.TextErr "0xc000010250 is not a valid longitude")) ∧
    latitude sampleLib (.of .string "not-a-number") "" =
      .ok (some (.TextErr "not-a-number is not a valid latitude")) ∧
    longitude sampleLib (.of .string "not-a-number") "" =
      .ok (some (.TextErr "not-a-number is not a valid longitude")) := by
  refine ⟨?_, ?_, ?_, ?_⟩ <;> decide

/-- Claim C12: for every input whose dynamic type is none of `float64`, `*float64`,
`string`, `*string` (the nil interface included), `latitude` and `longitude` return a
`TextErr` built from the `%v` rendering of the input: never no error, never
`ErrUnsupported`. -/
theorem other_shape_TextErr (L : Lib) (i : Value) (param : String)
    (h1 : i.dynType ≠ some .float64) (h2 : i.dynType ≠ some (.ptr .float64))
    (h3 : i.dynType ≠ some .string) (h4 : i.dynType ≠ some (.ptr .string)) :
    latitude L i param = .ok (some (.TextErr (L.formatV i ++ " is not a valid latitude"))) ∧
    longitude L i param = .ok (some (.TextErr (L.formatV i ++ " is not a valid longitude"))) ∧
    latitude L i param ≠ .ok none ∧ longitude L i param ≠ .ok none ∧
    latitude L i param ≠ .ok (some .ErrUnsupported) ∧
    longitude L i param ≠ .ok (some .ErrUnsupported) := by
  rw [latitude_default L i param h1 h2 h3 h4, longitude_default L i param h1 h2 h3 h4]
  refine ⟨rfl, rfl, ?_, ?_, ?_, ?_⟩ <;> intro e <;> cases e

/-- Witness for C12: the int `45`, the float32 `45` (bits `0x42340000`), `true`, an
empty struct, the nil interface, and `45` of the defined type `type Degrees float64`. -/
theorem other_shape_TextErr_witness :
    latitude sampleLib (.of .int (45 : Int)) "" =
      .ok (some (.TextErr "<value> is not a valid latitude")) ∧
    longitude sampleLib (.of .float32 (0x42340000 : Nat)) "" =
      .ok (some (.TextErr "<value> is not a valid longitude")) ∧
    latitude sampleLib (.of .bool true) "" =
      .ok (some (.TextErr "<value> is not a valid latitude")) ∧
    latitude sampleLib (.of (.struct .nil) ()) "" =
      .ok (some (.TextErr "<value> is not a valid latitude")) ∧
    latitude sampleLib .nil "" = .ok (some (.TextErr "<value> is not a valid latitude")) ∧
    latitude sampleLib (.of (.named "Degrees" .float64) Float64.c45) "" =
      .ok (some (.TextErr "<value> is not a valid latitude")) :=
  ⟨(other_shape_TextErr sampleLib (.of .int (45 : Int)) ""
      (fun h => by cases h) (fun h => by cases h) (fun h => by cases h) (fun h => by cases h)).1,
   (other_shape_TextErr sampleLib (.of .float32 (0x42340000 : Nat)) ""
      (fun h => by cases h) (fun h => by cases h) (fun h => by cases h)
      (fun h => by cases h)).2.1,
   (other_shape_TextErr sampleLib (.of .bool true) ""
      (fun h => by cases h) (fun h => by cases h) (fun h => by cases h) (fun h => by cases h)).1,
   (other_shape_TextErr sampleLib (.of (.struct .nil) ()) ""
      (fun h => by cases h) (fun h => by cases h) (fun h => by cases h) (fun h => by cases h)).1,
   (other_shape_TextErr sampleLib .nil ""
      (fun h => by cases h) (fun h => by cases h) (fun h => by cases h) (fun h => by cases h)).1,
   (other_shape_TextErr sampleLib (.of (.named "Degrees" .float64) Float64.c45) ""
      (fun h => by cases h) (fun h => by cases h) (fun h => by cases h) (fun h => by cases h)).1⟩

/-- Claim C14: the rule parameter is unused. For every value and every two parameter
strings `required`, `latitude`, `longitude` and `uuid` return the same result, whatever
the library functions and the collaborator `regex` are. -/
theorem param_unused (L : Lib) (regex : Value → String → Except Panic (Option Error))
    (v : Value) (p1 p2 : String) :
    required v p1 = required v p2 ∧
    latitude L v p1 = latitude L v p2 ∧
    longitude L v p1 = longitude L v p2 ∧
    uuid regex v p1 = uuid regex v p2 := by
  refine ⟨?_, ?_, ?_, rfl⟩
  · unfold required
    rfl
  · unfold latitude
    rfl
  · unfold longitude
    rfl

/-- Claim C15: `required`, `latitude` and `longitude` return on every input, with no
panic: each gives no error or an error value. The nil test, which panics on other
kinds, does not panic on the pointer and interface kinds for which `required` calls
it. -/
theorem validators_total (L : Lib) (v : Value) (param : String) :
    (∃ r : Option Error, required v param = .ok r) ∧
    (∃ r : Option Error, latitude L v param = .ok r) ∧
    (∃ r : Option Error, longitude L v param = .ok r) ∧
    (v.Kind = .Ptr ∨ v.Kind = .Interface → ∃ b : Bool, v.IsNil = .ok b) := by
  refine ⟨required_returns v param, ?_, ?_, Value.isNil_ok v⟩
  · rcases coordinate_cases L v param param with ⟨f, h, -⟩ | ⟨h, -⟩ | ⟨pre, h, -⟩ <;>
      exact ⟨_, h⟩
  · rcases coordinate_cases L v param param with ⟨f, -, h⟩ | ⟨-, h⟩ | ⟨pre, -, h⟩ <;>
      exact ⟨_, h⟩

/-- Witness for C15: the nil test panics on a string and answers on a nil `*int`; the
validators return on a string, which they never nil-test. -/
theorem validators_total_witness :
    Value.IsNil (.of .string "") = .error (.valueError "reflect.Value.IsNil" .String) ∧
    (∃ b : Bool, Value.IsNil (.of (.ptr .int) none) = .ok b) ∧
    (∃ r : Option Error, required (.of .string "") "" = .ok r) :=
  ⟨rfl, (validators_total sampleLib (.of (.ptr .int) none) "").2.2.2 (Or.inl rfl),
   (validators_total sampleLib (.of .string "") "").1⟩

/-- Claim C16: a non-nil reference and the value it points to get the same verdict. For
a non-nil `*float64` the result is the same as for the float64 it points to; for a
non-nil `*string` the checker returns no error exactly when it returns no error for
the string it points to. Both hold for `latitude` and for `longitude`. -/
theorem reference_same_verdict (L : Lib) (param : String) :
    (∀ p : Pointer Float64, latitude L (.of (.ptr .float64) (some p)) param =
      latitude L (.of .float64 p.target) param) ∧
    (∀ p : Pointer Float64, longitude L (.of (.ptr .float64) (some p)) param =
      longitude L (.of .float64 p.target) param) ∧
    (∀ q : Pointer String, latitude L (.of (.ptr .string) (some q)) param = .ok none ↔
      latitude L (.of .string q.target) param = .ok none) ∧
    (∀ q : Pointer String, longitude L (.of (.ptr .string) (some q)) param = .ok none ↔
      longitude L (.of .string q.target) param = .ok none) := by
  refine ⟨fun p => rfl, fun p => rfl, fun q => ?_, fun q => ?_⟩
  · rw [latitude_ptr_string, latitude_string]
    cases L.parseFloat q.target with
    | none => exact ⟨fun h => (by cases h), fun h => (by cases h)⟩
    | some f => exact Iff.rfl
  · rw [longitude_ptr_string, longitude_string]
    cases L.parseFloat q.target with
    | none => exact ⟨fun h => (by cases h), fun h => (by cases h)⟩
    | some f => exact Iff.rfl

/-- Claim C17: every error `latitude` returns is a `TextErr` whose message ends with
`" is not a valid latitude"`, every error `longitude` returns one whose message ends
with `" is not a valid longitude"`, and neither message names the other axis; for a
float64 the range check rejects (passed by value, through a non-nil `*float64`, or
parsed from a string by value or behind a non-nil `*string`), the text before the
suffix is its `%g` rendering. -/
theorem messages_name_the_axis (L : Lib) (i : Value) (param : String) (e : Error) :
    (latitude L i param = .ok (some e) →
      (∃ pre : String, e = .TextErr (pre ++ " is not a valid latitude")) ∧
      ∀ pre : String, e ≠ .TextErr (pre ++ " is not a valid longitude")) ∧
    (longitude L i param = .ok (some e) →
      (∃ pre : String, e = .TextErr (pre ++ " is not a valid longitude")) ∧
      ∀ pre : String, e ≠ .TextErr (pre ++ " is not a valid latitude")) ∧
    (∀ v : Float64, latitude L (.of .float64 v) param = .ok (some e) →
      e = .TextErr (L.formatG v ++ " is not a valid latitude")) ∧
    (∀ v : Float64, longitude L (.of .float64 v) param = .ok (some e) →
      e = .TextErr (L.formatG v ++ " is not a valid longitude")) ∧
    (∀ r : Pointer Float64, latitude L (.of (.ptr .float64) (some r)) param = .ok (some e) →
      e = .TextErr (L.formatG r.target ++ " is not a valid latitude")) ∧
    (∀ r : Pointer Float64, longitude L (.of (.ptr .float64) (some r)) param = .ok (some e) →
      e = .TextErr (L.formatG r.target ++ " is not a valid longitude")) ∧
    (∀ (s : String) (f : Float64), L.parseFloat s = some f →
      latitude L (.of .string s) param = .ok (some e) →
      e = .TextErr (L.formatG f ++ " is not a valid latitude")) ∧
    (∀ (s : String) (f : Float64), L.parseFloat s = some f →
      longitude L (.of .string s) param = .ok (some e) →
      e = .TextErr (L.formatG f ++ " is not a valid longitude")) ∧
    (∀ (q : Pointer String) (f : Float64), L.parseFloat q.target = some f →
      latitude L (.of (.ptr .string) (some q)) param = .ok (some e) →
      e = .TextErr (L.formatG f ++ " is not a valid latitude")) ∧
    (∀ (q : Pointer String) (f : Float64), L.parseFloat q.target = some f →
      longitude L (.of (.ptr .string) (some q)) param = .ok (some e) →
      e = .TextErr (L.formatG f ++ " is not a valid longitude")) := by
  have hlat : ∀ v : Float64, validateLatitude L v = some e →
      e = .TextErr (L.formatG v ++ " is not a valid latitude") := by
    intro v hv
    rcases validateLatitude_cases L v with h | h <;> rw [h] at hv
    · cases hv
    · injection hv with hv
      exact hv.symm
  have hlon : ∀ v : Float64, validateLongitude L v = some e →
      e = .TextErr (L.formatG v ++ " is not a valid longitude") := by
    intro v hv
    rcases validateLongitude_cases L v with h | h <;> rw [h] at hv
    · cases hv
    · injection hv with hv
      exact hv.symm
  have hne1 : ∀ a b : String,
      Error.TextErr (a ++ " is not a valid latitude") ≠
        Error.TextErr (b ++ " is not a valid longitude") := by
    intro a b h
    injection h with h
    exact axis_suffix_ne a b h
  refine ⟨fun h => ?_, fun h => ?_, fun v h => ?_, fun v h => ?_, fun r h => ?_,
    fun r h => ?_, fun s f hp h => ?_, fun s f hp h => ?_, fun q f hp h => ?_,
    fun q f hp h => ?_⟩
  · have key : ∃ pre : String, e = .TextErr (pre ++ " is not a valid latitude") := by
      rcases coordinate_cases L i param param with ⟨f, hf, -⟩ | ⟨hn, -⟩ | ⟨pre, hp, -⟩
      · rw [hf] at h
        injection h with h
        exact ⟨_, hlat f h⟩
      · rw [hn] at h
        injection h with h
        cases h
      · rw [hp] at h
        injection h with h
        injection h with h
        exact ⟨pre, h.symm⟩
    obtain ⟨pre, hpre⟩ := key
    exact ⟨⟨pre, hpre⟩, fun b => hpre ▸ hne1 pre b⟩
  · have key : ∃ pre : String, e = .TextErr (pre ++ " is not a valid longitude") := by
      rcases coordinate_cases L i param param with ⟨f, -, hf⟩ | ⟨-, hn⟩ | ⟨pre, -, hp⟩
      · rw [hf] at h
        injection h with h
        exact ⟨_, hlon f h⟩
      · rw [hn] at h
        injection h with h
        cases h
      · rw [hp] at h
        injection h with h
        injection h with h
        exact ⟨pre, h.symm⟩
    obtain ⟨pre, hpre⟩ := key
    exact ⟨⟨pre, hpre⟩, fun b => hpre ▸ (hne1 b pre).symm⟩
  · have h2 : Except.ok (validateLatitude L v) = (.ok (some e) : Except Panic _) := h
    injection h2 with h2
    exact hlat v h2
  · have h2 : Except.ok (validateLongitude L v) = (.ok (some e) : Except Panic _) := h
    injection h2 with h2
    exact hlon v h2
  · have h2 : Except.ok (validateLatitude L r.target) = (.ok (some e) : Except Panic _) := h
    injection h2 with h2
    exact hlat r.target h2
  · have h2 : Except.ok (validateLongitude L r.target) = (.ok (some e) : Except Panic _) := h
    injection h2 with h2
    exact hlon r.target h2
  · rw [latitude_string, hp] at h
    injection h with h
    exact hlat f h
  · rw [longitude_string, hp] at h
    injection h with h
    exact hlon f h
  · rw [latitude_ptr_string, hp] at h
    injection h with h
    exact hlat f h
  · rw [longitude_ptr_string, hp] at h
    injection h with h
    exact hlon f h

/-- Witness for C17: the message for the float64 `91` as a latitude, for the
unparseable string `"abc"` as a longitude, and for the string `"91"` behind a non-nil
`*string` as a latitude, where the text before the suffix is the `%g` rendering of the
parsed number and not the address of the pointer. -/
theorem messages_name_the_axis_witness :
    Error.TextErr "91 is not a valid latitude" =
      .TextErr (sampleLib.formatG Float64.c91 ++ " is not a valid latitude") ∧
    (∃ pre : String, Error.TextErr "abc is not a valid longitude" =
      .TextErr (pre ++ " is not a valid longitude")) ∧
    (latitude sampleLib (.of (.ptr .string) (some ⟨0xc000010250, "91"⟩)) "" =
      .ok (some (.TextErr "91 is not a valid latitude")) ∧
    Error.TextErr "91 is not a valid latitude" =
      .TextErr (sampleLib.formatG Float64.c91 ++ " is not a valid latitude")) :=
  ⟨(messages_name_the_axis sampleLib (.of .float64 Float64.c91) ""
      (.TextErr "91 is not a valid latitude")).2.2.1 Float64.c91 (by decide),
   ((messages_name_the_axis sampleLib (.of .string "abc") ""
      (.TextErr "abc is not a valid longitude")).2.1 (by decide)).1,
   by decide,
   (messages_name_the_axis sampleLib (.of .float64 Float64.c91) ""
      (.TextErr "91 is not a valid latitude")).2.2.2.2.2.2.2.2.1
      ⟨0xc000010250, "91"⟩ Float64.c91 (by decide) (by decide)⟩

/-- Claim C18 (the code at the failing input): `required` returns `ErrUnsupported` for
the complex128 zero, for the complex64 zero and for a non-zero complex128: the kinds
`Complex64` and `Complex128` are in no `case` of its switch. -/
theorem required_complex_unsupported :
    required (.of .complex128 (Float64.zero, Float64.zero)) "" = .ok (some .ErrUnsupported) ∧
    required (.of .complex64 ((0 : Nat), (0 : Nat))) "" = .ok (some .ErrUnsupported) ∧
    required (.of .complex128 (Float64.c45, Float64.c90)) "" = .ok (some .ErrUnsupported) := by
  refine ⟨?_, ?_, ?_⟩ <;> rfl

/-- Claim C19: every input `latitude` accepts is accepted by `longitude`, whatever the
two parameter strings; the converse fails, `120` is a longitude and not a latitude. -/
theorem latitude_valid_implies_longitude_valid (L : Lib) (i : Value) (p q : String) :
    (latitude L i p = .ok none → longitude L i q = .ok none) ∧
    (longitude L (.of .float64 Float64.c120) q = .ok none ∧
      latitude L (.of .float64 Float64.c120) p =
        .ok (some (.TextErr (L.formatG Float64.c120 ++ " is not a valid latitude")))) := by
  refine ⟨fun h => ?_, ?_, ?_⟩
  · rcases coordinate_cases L i p q with ⟨f, hf, hg⟩ | ⟨-, hn⟩ | ⟨pre, hp, -⟩
    · rw [hf] at h
      injection h with h
      rw [hg, validateLongitude_of_validateLatitude L f h]
    · exact hn
    · rw [hp] at h
      injection h with h
      cases h
  · show Except.ok (validateLongitude L Float64.c120) = .ok none
    rw [(validateLongitude_eq_none_iff L _).mpr
      (Or.inr ⟨120, Float64.toRat?_c120, by norm_num, by norm_num⟩)]
  · show Except.ok (validateLatitude L Float64.c120) = _
    rw [validateLatitude_of_outside L Float64.c120 (by decide)
      (Float64.not_inClosed_of_outside _ _ _
        (Or.inl (Or.inr ⟨120, Float64.toRat?_c120, by norm_num⟩))).2]

/-- Witness for C19: the string `"45.0"` and the nil `*float64` pass both checkers. -/
theorem latitude_valid_implies_longitude_valid_witness :
    longitude sampleLib (.of .string "45.0") "b" = .ok none ∧
    longitude sampleLib (.of (.ptr .float64) none) "b" = .ok none :=
  ⟨(latitude_valid_implies_longitude_valid sampleLib (.of .string "45.0") "a" "b").1
      (by decide),
   (latitude_valid_implies_longitude_valid sampleLib (.of (.ptr .float64) none) "a" "b").1
      rfl⟩

/-- Claim C20: a float64 NaN, by value or through a non-nil `*float64`, is accepted by
`latitude` and by `longitude`; positive and negative infinity are rejected by both. -/
theorem NaN_accepted_infinities_rejected (L : Lib) (param : String) :
    (∀ v : Float64, v.isNaN = true →
      latitude L (.of .float64 v) param = .ok none ∧
      longitude L (.of .float64 v) param = .ok none ∧
      (∀ addr : Nat, latitude L (.of (.ptr .float64) (some ⟨addr, v⟩)) param = .ok none) ∧
      (∀ addr : Nat, longitude L (.of (.ptr .float64) (some ⟨addr, v⟩)) param = .ok none)) ∧
    (∀ v : Float64, v.isInf = true →
      latitude L (.of .float64 v) param =
        .ok (some (.TextErr (L.formatG v ++ " is not a valid latitude"))) ∧
      longitude L (.of .float64 v) param =
        .ok (some (.TextErr (L.formatG v ++ " is not a valid longitude")))) := by
  constructor
  · intro v hv
    have h1 : validateLatitude L v = none := (validateLatitude_eq_none_iff L v).mpr (Or.inl hv)
    have h2 : validateLongitude L v = none :=
      (validateLongitude_eq_none_iff L v).mpr (Or.inl hv)
    refine ⟨?_, ?_, fun addr => ?_, fun addr => ?_⟩
    · show Except.ok (validateLatitude L v) = .ok none
      rw [h1]
    · show Except.ok (validateLongitude L v) = .ok none
      rw [h2]
    · show Except.ok (validateLatitude L v) = .ok none
      rw [h1]
    · show Except.ok (validateLongitude L v) = .ok none
      rw [h2]
  · intro v hv
    have hout : ∀ lo hi : ℚ, v.isNaN = false ∧ ¬ v.InClosed lo hi := by
      intro lo hi
      cases hs : v.sign with
      | false => exact Float64.not_inClosed_of_outside lo hi v (Or.inl (Or.inl ⟨hv, hs⟩))
      | true => exact Float64.not_inClosed_of_outside lo hi v (Or.inr (Or.inl ⟨hv, hs⟩))
    constructor
    · show Except.ok (validateLatitude L v) = _
      rw [validateLatitude_of_outside L v (hout 0 0).1 (hout _ _).2]
    · show Except.ok (validateLongitude L v) = _
      rw [validateLongitude_of_outside L v (hout 0 0).1 (hout _ _).2]

/-- Witness for C20: the NaN of `math.NaN()`, `+Inf` and `-Inf`. -/
theorem NaN_accepted_infinities_rejected_witness :
    latitude sampleLib (.of (.ptr .float64) (some ⟨0xc000010250, Float64.NaN⟩)) "" = .ok none ∧
    longitude sampleLib (.of .float64 Float64.NaN) "" = .ok none ∧
    latitude sampleLib (.of .float64 Float64.posInf) "" =
      .ok (some (.TextErr "+Inf is not a valid latitude")) ∧
    longitude sampleLib (.of .float64 Float64.posInf.neg) "" =
      .ok (some (.TextErr "-Inf is not a valid longitude")) :=
  ⟨((NaN_accepted_infinities_rejected sampleLib "").1 Float64.NaN (by decide)).2.2.1 _,
   ((NaN_accepted_infinities_rejected sampleLib "").1 Float64.NaN (by decide)).2.1,
   ((NaN_accepted_infinities_rejected sampleLib "").2 Float64.posInf (by decide)).1,
   ((NaN_accepted_infinities_rejected sampleLib "").2 Float64.posInf.neg (by decide)).2⟩

namespace Regexp

theorem matchRep_eq_some (fold : Bool) (cl : Class) (n : Nat) :
    ∀ cs rest : List Char, matchRep fold cl n cs = some rest ↔
      ∃ g : List Char, g.length = n ∧ (∀ c ∈ g, Class.mem fold cl c = true) ∧ cs = g ++ rest := by
  induction n with
  | zero =>
    intro cs rest
    constructor
    · intro h
      simp only [matchRep, Option.some.injEq] at h
      exact ⟨[], rfl, fun c hc => (by cases hc), by simp [h]⟩
    · rintro ⟨g, hg, -, rfl⟩
      rw [List.length_eq_zero.mp hg]
      rfl
  | succ n ih =>
    intro cs rest
    cases cs with
    | nil =>
      constructor
      · intro h
        simp [matchRep] at h
      · rintro ⟨g, hg, -, h⟩
        cases g with
        | nil => simp at hg
        | cons a g => simp at h
    | cons c cs =>
      simp only [matchRep]
      constructor
      · intro h
        split at h
        · rename_i hc
          obtain ⟨g, hg, hall, rfl⟩ := (ih cs rest).mp h
          refine ⟨c :: g, by simp [hg], ?_, rfl⟩
          intro d hd
          rcases List.mem_cons.mp hd with rfl | hd
          · exact hc
          · exact hall d hd
        · cases h
      · rintro ⟨g, hg, hall, h⟩
        cases g with
        | nil => simp at hg
        | cons a g =>
          simp only [List.cons_append, List.cons.injEq] at h
          obtain ⟨rfl, rfl⟩ := h
          rw [if_pos (hall c (List.mem_cons_self _ _))]
          exact (ih _ rest).mpr ⟨g, by simpa using hg, fun d hd => hall d (List.mem_cons_of_mem _ hd), rfl⟩

theorem matchItems_nil (fold : Bool) (cs r : List Char) :
    matchItems fold [] cs = some r ↔ cs = r := by
  simp [matchItems]

theorem matchItems_cons (fold : Bool) (it : Item) (its : List Item) (cs r : List Char) :
    matchItems fold (it :: its) cs = some r ↔
      ∃ g : List Char, g.length = it.count ∧ (∀ c ∈ g, Class.mem fold it.cls c = true) ∧
        ∃ rest : List Char, cs = g ++ rest ∧ matchItems fold its rest = some r := by
  simp only [matchItems]
  constructor
  · intro h
    split at h
    · cases h
    · rename_i rest hrest
      obtain ⟨g, hg, hall, hcs⟩ := (matchRep_eq_some fold it.cls it.count cs rest).mp hrest
      exact ⟨g, hg, hall, rest, hcs, h⟩
  · rintro ⟨g, hg, hall, rest, hcs, h⟩
    rw [(matchRep_eq_some fold it.cls it.count cs rest).mpr ⟨g, hg, hall, hcs⟩]
    exact h

theorem matchList_of_bol (p : Prog) (hb : p.bol = true) (cs : List Char) :
    p.matchList cs = p.matchHere cs := by
  cases cs with
  | nil => rfl
  | cons c cs => simp [Prog.matchList, hb]

end Regexp

/-- A property of all characters: checked on the 128 ASCII code points and, apart, on
the rest. -/
theorem char_cases (P : Char → Prop) (hsmall : ∀ n : Nat, n < 128 → P (Char.ofNat n))
    (hbig : ∀ c : Char, 128 ≤ c.toNat → P c) (c : Char) : P c := by
  by_cases h : c.toNat < 128
  · have := hsmall c.toNat h
    rwa [Char.ofNat_toNat] at this
  · exact hbig c (Nat.le_of_not_lt h)

/-- A character outside ASCII is none of the characters of an ASCII list. -/
theorem not_mem_of_big (l : List Char) (hl : ∀ d ∈ l, d.toNat < 128) (c : Char)
    (hc : 128 ≤ c.toNat) : c ∉ l := by
  intro h
  have := hl c h
  omega

set_option maxRecDepth 100000 in
theorem mem_hexClass (c : Char) :
    Regexp.Class.mem true [(48, 57), (97, 102)] c = isHexDigit c := by
  refine char_cases (fun c => Regexp.Class.mem true [(48, 57), (97, 102)] c = isHexDigit c)
    (by decide) (fun c hc => ?_) c
  have h1 : isHexDigit c = false := by
    simp only [isHexDigit, decide_eq_false_iff_not]
    exact not_mem_of_big _ (by decide) c hc
  show Regexp.Class.mem true [(48, 57), (97, 102)] c = isHexDigit c
  rw [h1]
  simp [Regexp.Class.mem, Regexp.inRanges]
  omega

set_option maxRecDepth 100000 in
theorem mem_versionClass (c : Char) :
    Regexp.Class.mem true [(49, 53)] c = isVersionDigit c := by
  refine char_cases (fun c => Regexp.Class.mem true [(49, 53)] c = isVersionDigit c)
    (by decide) (fun c hc => ?_) c
  have h1 : isVersionDigit c = false := by
    simp only [isVersionDigit, decide_eq_false_iff_not]
    exact not_mem_of_big _ (by decide) c hc
  show Regexp.Class.mem true [(49, 53)] c = isVersionDigit c
  rw [h1]
  simp [Regexp.Class.mem, Regexp.inRanges]
  omega

set_option maxRecDepth 100000 in
theorem mem_variantClass (c : Char) :
    Regexp.Class.mem true [(56, 56), (57, 57), (97, 97), (98, 98)] c = isVariantDigit c := by
  refine char_cases
    (fun c => Regexp.Class.mem true [(56, 56), (57, 57), (97, 97), (98, 98)] c = isVariantDigit c)
    (by decide) (fun c hc => ?_) c
  have h1 : isVariantDigit c = false := by
    simp only [isVariantDigit, decide_eq_false_iff_not]
    exact not_mem_of_big _ (by decide) c hc
  show Regexp.Class.mem true [(56, 56), (57, 57), (97, 97), (98, 98)] c = isVariantDigit c
  rw [h1]
  simp [Regexp.Class.mem, Regexp.inRanges]
  omega

set_option maxRecDepth 100000 in
theorem mem_hyphenClass (c : Char) :
    Regexp.Class.mem true [(45, 45)] c = decide (c = '-') := by
  refine char_cases (fun c => Regexp.Class.mem true [(45, 45)] c = decide (c = '-'))
    (by decide) (fun c hc => ?_) c
  have h1 : decide (c = '-') = false := by
    rw [decide_eq_false_iff_not]
    intro h
    rw [h] at hc
    revert hc
    decide
  show Regexp.Class.mem true [(45, 45)] c = decide (c = '-')
  rw [h1]
  simp [Regexp.Class.mem, Regexp.inRanges]
  omega

set_option maxRecDepth 100000 in
theorem hex_of_version_or_variant (c : Char) :
    (isVersionDigit c = true → isHexDigit c = true) ∧
    (isVariantDigit c = true → isHexDigit c = true) := by
  refine char_cases (fun c => (isVersionDigit c = true → isHexDigit c = true) ∧
    (isVariantDigit c = true → isHexDigit c = true)) (by decide) (fun c hc => ?_) c
  have h1 : isVersionDigit c = false := by
    simp only [isVersionDigit, decide_eq_false_iff_not]
    exact not_mem_of_big _ (by decide) c hc
  have h2 : isVariantDigit c = false := by
    simp only [isVariantDigit, decide_eq_false_iff_not]
    exact not_mem_of_big _ (by decide) c hc
  show (isVersionDigit c = true → isHexDigit c = true) ∧
    (isVariantDigit c = true → isHexDigit c = true)
  rw [h1, h2]
  exact ⟨fun h => (by cases h), fun h => (by cases h)⟩

theorem compile_uuidRE : Regexp.compile uuidRE = some ⟨true, true, true,
    [⟨[(48, 57), (97, 102)], 8⟩, ⟨[(45, 45)], 1⟩, ⟨[(48, 57), (97, 102)], 4⟩,
     ⟨[(45, 45)], 1⟩, ⟨[(49, 53)], 1⟩, ⟨[(48, 57), (97, 102)], 3⟩, ⟨[(45, 45)], 1⟩,
     ⟨[(56, 56), (57, 57), (97, 97), (98, 98)], 1⟩, ⟨[(48, 57), (97, 102)], 3⟩,
     ⟨[(45, 45)], 1⟩, ⟨[(48, 57), (97, 102)], 12⟩]⟩ := by
  decide

theorem matchItems_uuid (cs : List Char) :
    Regexp.matchItems true
      [⟨[(48, 57), (97, 102)], 8⟩, ⟨[(45, 45)], 1⟩, ⟨[(48, 57), (97, 102)], 4⟩,
       ⟨[(45, 45)], 1⟩, ⟨[(49, 53)], 1⟩, ⟨[(48, 57), (97, 102)], 3⟩, ⟨[(45, 45)], 1⟩,
       ⟨[(56, 56), (57, 57), (97, 97), (98, 98)], 1⟩, ⟨[(48, 57), (97, 102)], 3⟩,
       ⟨[(45, 45)], 1⟩, ⟨[(48, 57), (97, 102)], 12⟩] cs = some [] ↔
    ∃ g1 g2 g3 g4 g5 : List Char,
      cs = g1 ++ '-' :: (g2 ++ '-' :: (g3 ++ '-' :: (g4 ++ '-' :: g5))) ∧
      g1.length = 8 ∧ g2.length = 4 ∧ g3.length = 4 ∧ g4.length = 4 ∧ g5.length = 12 ∧
      (∀ c ∈ g1 ++ (g2 ++ (g3 ++ (g4 ++ g5))), isHexDigit c = true) ∧
      (∃ c : Char, g3.head? = some c ∧ isVersionDigit c = true) ∧
      (∃ c : Char, g4.head? = some c ∧ isVariantDigit c = true) := by
  simp only [Regexp.matchItems_cons, Regexp.matchItems_nil, mem_hexClass, mem_versionClass,
    mem_variantClass, mem_hyphenClass, decide_eq_true_eq]
  constructor
  · rintro ⟨g1, hl1, hx1, r1, rfl, d1, hd1, hy1, r2, rfl, g2, hl2, hx2, r3, rfl,
      d2, hd2, hy2, r4, rfl, v, hv, hvx, r5, rfl, g3, hl3, hx3, r6, rfl,
      d3, hd3, hy3, r7, rfl, w, hw, hwx, r8, rfl, g4, hl4, hx4, r9, rfl,
      d4, hd4, hy4, r10, rfl, g5, hl5, hx5, r11, rfl, rfl⟩
    obtain ⟨a1, rfl⟩ := List.length_eq_one.mp hd1
    obtain ⟨a2, rfl⟩ := List.length_eq_one.mp hd2
    obtain ⟨a3, rfl⟩ := List.length_eq_one.mp hd3
    obtain ⟨a4, rfl⟩ := List.length_eq_one.mp hd4
    obtain ⟨av, rfl⟩ := List.length_eq_one.mp hv
    obtain ⟨aw, rfl⟩ := List.length_eq_one.mp hw
    have e1 := hy1 a1 (List.mem_singleton_self _)
    have e2 := hy2 a2 (List.mem_singleton_self _)
    have e3 := hy3 a3 (List.mem_singleton_self _)
    have e4 := hy4 a4 (List.mem_singleton_self _)
    have ev := hvx av (List.mem_singleton_self _)
    have ew := hwx aw (List.mem_singleton_self _)
    subst e1 e2 e3 e4
    refine ⟨g1, g2, av :: g3, aw :: g4, g5, by simp, hl1, hl2, by simp [hl3], by simp [hl4],
      hl5, ?_, ⟨av, rfl, ev⟩, ⟨aw, rfl, ew⟩⟩
    intro c hc
    simp only [List.mem_append, List.mem_cons] at hc
    rcases hc with h | h | (h | h) | (h | h) | h
    · exact hx1 c h
    · exact hx2 c h
    · exact h ▸ (hex_of_version_or_variant av).1 ev
    · exact hx3 c h
    · exact h ▸ (hex_of_version_or_variant aw).2 ew
    · exact hx4 c h
    · exact hx5 c h
  · rintro ⟨g1, g2, g3, g4, g5, rfl, hl1, hl2, hl3, hl4, hl5, hall, ⟨cv, hcv, hv⟩,
      ⟨cw, hcw, hw⟩⟩
    cases g3 with
    | nil => simp at hcv
    | cons a3 t3 =>
      cases g4 with
      | nil => simp at hcw
      | cons a4 t4 =>
        simp only [List.head?_cons, Option.some.injEq] at hcv hcw
        subst hcv hcw
        have hmem : ∀ c : Char, c ∈ g1 ∨ c ∈ g2 ∨ c ∈ t3 ∨ c ∈ t4 ∨ c ∈ g5 →
            isHexDigit c = true := by
          intro c hc
          apply hall c
          simp only [List.mem_append, List.mem_cons]
          tauto
        refine ⟨g1, hl1, fun c hc => hmem c (Or.inl hc), _, rfl,
          ['-'], rfl, by simp, _, rfl,
          g2, hl2, fun c hc => hmem c (Or.inr (Or.inl hc)), _, rfl,
          ['-'], rfl, by simp, _, rfl,
          [a3], rfl, by simpa using hv, _, rfl,
          t3, by simpa using hl3, fun c hc => hmem c (Or.inr (Or.inr (Or.inl hc))), _, rfl,
          ['-'], rfl, by simp, _, rfl,
          [a4], rfl, by simpa using hw, _, rfl,
          t4, by simpa using hl4,
          fun c hc => hmem c (Or.inr (Or.inr (Or.inr (Or.inl hc)))), _, rfl,
          ['-'], rfl, by simp, _, rfl,
          g5, hl5, fun c hc => hmem c (Or.inr (Or.inr (Or.inr (Or.inr hc)))), [], ?_, rfl⟩
        simp

/-- The modelled collaborator reports valid exactly when the pattern matches. -/
theorem regex_valid_iff (s pattern : String) :
    regex (.of .string s) pattern = .ok none ↔ Regexp.matchString pattern s = some true := by
  have hdef : regex (.of .string s) pattern =
      if Regexp.matchString pattern s = some true then (Except.ok none : Except Panic _)
      else Except.ok (some (Error.TextErr "regular expression mismatch")) := rfl
  rw [hdef]
  by_cases h : Regexp.matchString pattern s = some true
  · rw [if_pos h]
    exact ⟨fun _ => h, fun _ => rfl⟩
  · rw [if_neg h]
    exact ⟨fun e => (by cases e), fun e => absurd e h⟩

/-- The pattern of `uuid` matches a text exactly when the text has the UUID form. -/
theorem matchString_uuidRE (s : String) :
    Regexp.matchString uuidRE s = some true ↔ IsUUIDText s := by
  unfold Regexp.matchString IsUUIDText
  rw [compile_uuidRE, ← matchItems_uuid]
  simp only [Option.map_some', Option.some.injEq]
  rw [Regexp.matchList_of_bol _ rfl]
  unfold Regexp.Prog.matchHere
  simp only []
  cases h : Regexp.matchItems true _ s.toList with
  | none => simp
  | some rest => cases rest <;> simp

/-! ## The format checker -/

/-- Claim C13: with a collaborator `regex` that, given the pattern of `uuid`, reports
valid exactly when the pattern matches the string, `uuid` is valid on a string if and
only if the string is five groups of 8, 4, 4, 4 and 12 hexadecimal digits (either
case) joined by hyphens, the third group starting with a digit `1` to `5` and the
fourth with `8`, `9`, `a` or `b` (either case); such a string has exactly 36
characters. Nothing is assumed of the collaborator on any other pattern. -/
theorem uuid_valid_iff_canonical (regex : Value → String → Except Panic (Option Error))
    (hre : ∀ s : String,
      regex (.of .string s) uuidRE = .ok none ↔ Regexp.matchString uuidRE s = some true)
    (s param : String) :
    (uuid regex (.of .string s) param = .ok none ↔ IsUUIDText s) ∧
    (IsUUIDText s → s.length = 36) := by
  constructor
  · show regex (.of .string s) uuidRE = .ok none ↔ IsUUIDText s
    rw [hre, matchString_uuidRE]
  · rintro ⟨g1, g2, g3, g4, g5, hs, h1, h2, h3, h4, h5, -⟩
    have hlen := congrArg List.length hs
    simp only [List.length_append, List.length_cons, h1, h2, h3, h4, h5] at hlen
    exact hlen

/-- Witness for C13, with the modelled collaborator: the lower-case and the upper-case
UUID are valid and have the UUID form, `not-a-uuid` has not. -/
theorem uuid_valid_iff_canonical_witness :
    IsUUIDText "550e8400-e29b-41d4-a716-446655440000" ∧
    IsUUIDText "550E8400-E29B-41D4-A716-446655440000" ∧
    ¬ IsUUIDText "not-a-uuid" ∧
    "550e8400-e29b-41d4-a716-446655440000".length = 36 :=
  ⟨(uuid_valid_iff_canonical regex (fun t => regex_valid_iff t uuidRE)
      "550e8400-e29b-41d4-a716-446655440000" "").1.mp (by decide),
   (uuid_valid_iff_canonical regex (fun t => regex_valid_iff t uuidRE)
      "550E8400-E29B-41D4-A716-446655440000" "").1.mp (by decide),
   fun h => absurd ((uuid_valid_iff_canonical regex (fun t => regex_valid_iff t uuidRE) "not-a-uuid" "").1.mpr h)
      (by decide),
   (uuid_valid_iff_canonical regex (fun t => regex_valid_iff t uuidRE)
      "550e8400-e29b-41d4-a716-446655440000" "").2
      ((uuid_valid_iff_canonical regex (fun t => regex_valid_iff t uuidRE)
        "550e8400-e29b-41d4-a716-446655440000" "").1.mp (by decide))⟩

end walidator
